import Mathlib

/-! # Docker authorizer (cmd/werf/common/docker_authorizer)

A shallow embedding of `docker_authorizer.go`.

* Go strings are Lean strings; `os.Getenv` of an unset variable is `""`.
* A Go `error` is identified with its message (`err.Error()`), so
  `fmt.Errorf("... %s", err)` is string concatenation.
* A `*DockerCredentials` is an `Option DockerCredentials` (`nil` is `none`).
* A Go result pair `(x, err)` in which `x` is `nil` whenever `err` is not is an `Except`.
* The process environment and the calls made to the collaborators (`os.Mkdir`,
  `docker.Init`, `docker.Login`, `logger.LogInfoF`, `os.Setenv`) are explicit state: a
  `World`. What a collaborator answers is a parameter (`Collab`), and may depend on
  everything that happened before the call.
-/

namespace docker_authorizer

/-! ## Data model -/

/-- A Go `error`, identified with its message. -/
abbrev GoError := String

deriving instance DecidableEq for Except

/-- The process environment as `os.Getenv` sees it: unset variables read as `""`. -/
abbrev Env := String → String

/-- The provider classifier `docker_registry.IsGCR`, a collaborator outside this package:
it answers `true`, `false` or fails. -/
abbrev Classifier := String → Except GoError Bool

/-- The Go struct `DockerCredentials`. -/
structure DockerCredentials where
  Username : String
  Password : String
  deriving DecidableEq, Repr

/-- The Go struct `DockerAuthorizer`; its three credential fields are nullable pointers. -/
structure DockerAuthorizer where
  HostDockerConfigDir : String
  ExternalDockerConfig : Bool
  Credentials : Option DockerCredentials
  PullCredentials : Option DockerCredentials
  PushCredentials : Option DockerCredentials
  deriving DecidableEq, Repr

/-! ## Credential resolution

Every resolver runs inside the process, so it is given the environment and the classifier
whether or not its body reads them. -/

/-- Go `getSpecifiedCredentials`. -/
def getSpecifiedCredentials (usernameOption passwordOption : String) :
    Option DockerCredentials :=
  if usernameOption ≠ "" ∧ passwordOption ≠ "" then
    some { Username := usernameOption, Password := passwordOption }
  else
    none

/-- Go `getDefaultAutologinCredentials`. -/
def getDefaultAutologinCredentials (env : Env) : Except GoError (Option DockerCredentials) :=
  if env "WERF_IGNORE_CI_DOCKER_AUTOLOGIN" = "" then
    let ciRegistryEnv := env "CI_REGISTRY"
    let ciJobTokenEnv := env "CI_JOB_TOKEN"
    if ciRegistryEnv ≠ "" ∧ ciJobTokenEnv ≠ "" then
      .ok (some { Username := "gitlab-ci-token", Password := ciJobTokenEnv })
    else
      .ok none
  else
    .ok none

/-- Go `isGCR`: the classifier is asked only about a non-empty repo. -/
def isGCR (IsGCR : Classifier) (repoOption : String) : Except GoError Bool :=
  if repoOption ≠ "" then IsGCR repoOption else .ok false

/-- Go `getDefaultCredentials`. -/
def getDefaultCredentials (env : Env) (IsGCR : Classifier)
    (usernameOption passwordOption repo : String) : Except GoError (Option DockerCredentials) :=
  match getSpecifiedCredentials usernameOption passwordOption with
  | some creds => .ok (some creds)
  | none =>
    match isGCR IsGCR repo with
    | .error err => .error err
    | .ok true => .ok none
    | .ok false => getDefaultAutologinCredentials env

/-- Go `getPullCredentials`. -/
def getPullCredentials (env : Env) (_IsGCR : Classifier)
    (pullUsernameOption pullPasswordOption : String) : Except GoError (Option DockerCredentials) :=
  match getSpecifiedCredentials pullUsernameOption pullPasswordOption with
  | some creds => .ok (some creds)
  | none => getDefaultAutologinCredentials env

/-- Go `getPushCredentials`. -/
def getPushCredentials (env : Env) (IsGCR : Classifier)
    (usernameOption passwordOption repo : String) : Except GoError (Option DockerCredentials) :=
  getDefaultCredentials env IsGCR usernameOption passwordOption repo

/-- Go `getPurgeCredentials`: it reads neither the environment nor the classifier. -/
def getPurgeCredentials (_env : Env) (_IsGCR : Classifier)
    (usernameOption passwordOption : String) : Except GoError (Option DockerCredentials) :=
  .ok (getSpecifiedCredentials usernameOption passwordOption)

/-- Go `getSyncCredentials`. -/
def getSyncCredentials (env : Env) (IsGCR : Classifier)
    (usernameOption passwordOption repo : String) : Except GoError (Option DockerCredentials) :=
  getDefaultCredentials env IsGCR usernameOption passwordOption repo

/-- Go `getDeployCredentials`. -/
def getDeployCredentials (env : Env) (IsGCR : Classifier)
    (usernameOption passwordOption repo : String) : Except GoError (Option DockerCredentials) :=
  getDefaultCredentials env IsGCR usernameOption passwordOption repo

/-- Go `getCleanupCredentials`. -/
def getCleanupCredentials (env : Env) (IsGCR : Classifier)
    (usernameOption passwordOption repo : String) : Except GoError (Option DockerCredentials) :=
  match getSpecifiedCredentials usernameOption passwordOption with
  | some creds => .ok (some creds)
  | none =>
    let werfCleanupRegistryPassword := env "WERF_CLEANUP_REGISTRY_PASSWORD"
    if werfCleanupRegistryPassword ≠ "" then
      .ok (some { Username := "werf-cleanup", Password := werfCleanupRegistryPassword })
    else
      match isGCR IsGCR repo with
      | .error err => .error err
      | .ok true => .ok none
      | .ok false => getDefaultAutologinCredentials env

/-! ## Paths: Go `path.Clean` and `path.Join`

The standard library works on bytes and only ever compares them with `/` and `.`; both are
ASCII, so on well-formed UTF-8 text the same algorithm on characters gives the same
result. Indices below are positions in the character list. -/

/-- The inner loop of the `..` case of `path.Clean`:
`for out.w > dotdot && out.index(out.w) != '/' { out.w-- }`.
The trip count is at most the starting `w`, which is the fuel given. -/
def cleanBacktrack (out : List Char) (dotdot : Nat) : Nat → Nat → Nat
  | 0, w => w
  | fuel + 1, w =>
    if w > dotdot ∧ out.getD w ' ' ≠ '/' then cleanBacktrack out dotdot fuel (w - 1) else w

/-- The main loop `for r < n { switch ... }` of `path.Clean`. `r` is the read index, `out`
the bytes written so far (`out.w` is its length) and `dotdot` the index where `..` must
stop. Every iteration advances `r`, so `n - r` units of fuel are enough. -/
def cleanLoop (path : List Char) (rooted : Bool) : Nat → Nat → List Char → Nat → List Char
  | 0, _, out, _ => out
  | fuel + 1, r, out, dotdot =>
    let n := path.length
    if r < n then
      if path.getD r ' ' = '/' then
        -- empty path element
        cleanLoop path rooted fuel (r + 1) out dotdot
      else if path.getD r ' ' = '.' ∧ (r + 1 = n ∨ path.getD (r + 1) ' ' = '/') then
        -- . element
        cleanLoop path rooted fuel (r + 1) out dotdot
      else if path.getD r ' ' = '.' ∧ path.getD (r + 1) ' ' = '.' ∧
          (r + 2 = n ∨ path.getD (r + 2) ' ' = '/') then
        -- .. element: remove to last /
        if out.length > dotdot then
          let w := cleanBacktrack out dotdot (out.length - 1) (out.length - 1)
          cleanLoop path rooted fuel (r + 2) (out.take w) dotdot
        else if rooted = false then
          let out1 := if out.length > 0 then out ++ ['/'] else out
          let out2 := out1 ++ ['.', '.']
          cleanLoop path rooted fuel (r + 2) out2 out2.length
        else
          cleanLoop path rooted fuel (r + 2) out dotdot
      else
        -- real path element: add slash if needed, then copy the element
        let out1 :=
          if (rooted = true ∧ out.length ≠ 1) ∨ (rooted = false ∧ out.length ≠ 0) then
            out ++ ['/']
          else out
        let elem := (path.drop r).takeWhile (fun ch => ch != '/')
        cleanLoop path rooted fuel (r + elem.length) (out1 ++ elem) dotdot
    else out

/-- Go `path.Clean`. -/
def pathClean (path : String) : String :=
  if path = "" then "."
  else
    let p := path.data
    let rooted : Bool := p.getD 0 ' ' = '/'
    let out := if rooted then cleanLoop p rooted p.length 1 ['/'] 1
               else cleanLoop p rooted p.length 0 [] 0
    -- Turn empty string into "."
    if out.length = 0 then "." else String.mk out

/-- Go `path.Join`: empty elements are ignored, the rest are joined with `/` and cleaned. -/
def pathJoin (elem : List String) : String :=
  let size := (elem.map String.length).sum
  if size = 0 then ""
  else
    let buf := elem.foldl
      (fun (buf : List Char) (e : String) =>
        if buf.length > 0 ∨ e ≠ "" then
          (if buf.length > 0 then buf ++ ['/'] else buf) ++ e.data
        else buf) []
    pathClean (String.mk buf)

/-! ## The world: environment and collaborator calls -/

/-- A call made to a collaborator, or a write to the process environment. -/
inductive Event
  | Mkdir (name : String) (perm : Nat)
  | Init (dockerConfigDir : String)
  | Login (username password repo : String)
  | LogInfoF (line : String)
  | Setenv (key value : String)
  deriving DecidableEq, Repr

/-- The state around the package: the process environment, and every collaborator call made
so far, oldest first. -/
structure World where
  env : Env
  trace : List Event

/-- What the collaborators answer. `none` is a `nil` error. Each answer may depend on the
world at the time of the call (for instance `os.Mkdir` fails on a path made earlier). -/
structure Collab where
  IsGCR : Classifier
  Mkdir : World → String → Option GoError
  Init : World → String → Option GoError
  Login : World → String → String → String → Option GoError

/-- Records one collaborator call. -/
def World.emit (w : World) (e : Event) : World :=
  { w with trace := w.trace ++ [e] }

/-- Go `os.Setenv(key, value)`, for a key and a value the system accepts. -/
def World.Setenv (w : World) (key value : String) : World :=
  { env := Function.update w.env key value, trace := w.trace ++ [Event.Setenv key value] }

/-- Go `os.ModePerm` (`0777`). -/
def ModePerm : Nat := 0o777

/-! ## The authorizer -/

/-- Go `GetHomeDockerConfigDir`. -/
def GetHomeDockerConfigDir (env : Env) : String :=
  pathJoin [env "HOME", ".docker"]

/-- Go `getDockerAuthorizer`. The result is the world after the call together with the
returned pair. -/
def getDockerAuthorizer (c : Collab) (w : World) (projectTmpDir : String)
    (credentials pullCredentials pushCredentials : Option DockerCredentials) :
    World × Except GoError DockerAuthorizer :=
  let a : DockerAuthorizer :=
    { HostDockerConfigDir := "", ExternalDockerConfig := false,
      Credentials := credentials, PullCredentials := pullCredentials,
      PushCredentials := pushCredentials }
  let werfDockerConfigEnv := w.env "WERF_DOCKER_CONFIG"
  let chosen : World × Except GoError DockerAuthorizer :=
    if werfDockerConfigEnv ≠ "" then
      (w, .ok { a with HostDockerConfigDir := werfDockerConfigEnv, ExternalDockerConfig := true })
    else if a.Credentials ≠ none ∨ a.PullCredentials ≠ none ∨ a.PushCredentials ≠ none then
      let tmpDockerConfigDir := pathJoin [projectTmpDir, "docker"]
      let w1 := w.emit (Event.Mkdir tmpDockerConfigDir ModePerm)
      match c.Mkdir w tmpDockerConfigDir with
      | some err =>
        (w1, .error ("error creating tmp dir " ++ tmpDockerConfigDir ++
          " for docker config: " ++ err))
      | none =>
        (w1.emit (Event.LogInfoF ("Using tmp docker config at " ++ tmpDockerConfigDir ++ "\n")),
          .ok { a with HostDockerConfigDir := tmpDockerConfigDir })
    else
      (w, .ok { a with HostDockerConfigDir := GetHomeDockerConfigDir w.env,
                       ExternalDockerConfig := true })
  match chosen with
  | (w1, .error err) => (w1, .error err)
  | (w1, .ok a1) =>
    let w2 := w1.emit (Event.Init a1.HostDockerConfigDir)
    match c.Init w1 a1.HostDockerConfigDir with
    | some err => (w2, .error err)
    | none => (w2.Setenv "DOCKER_CONFIG" a1.HostDockerConfigDir, .ok a1)

/-- What a method with receiver `a *DockerAuthorizer` leaves behind: the receiver, the
world, and the returned error (`none` is `nil`). -/
structure MethodResult where
  recv : DockerAuthorizer
  world : World
  err : Option GoError

/-- Go `(*DockerAuthorizer).login`. -/
def DockerAuthorizer.login (c : Collab) (w : World) (a : DockerAuthorizer)
    (creds : Option DockerCredentials) (repo : String) : MethodResult :=
  match a.ExternalDockerConfig, creds with
  | true, _ => ⟨a, w, none⟩
  | false, none => ⟨a, w, none⟩
  | false, some cr =>
    let w1 := w.emit (Event.Login cr.Username cr.Password repo)
    match c.Login w cr.Username cr.Password repo with
    | some err => ⟨a, w1, some err⟩
    | none =>
      let w2 := w1.emit (Event.Init a.HostDockerConfigDir)
      match c.Init w1 a.HostDockerConfigDir with
      | some err => ⟨a, w2, some err⟩
      | none => ⟨a, w2, none⟩

/-- Go `(*DockerAuthorizer).LoginForPull`. -/
def DockerAuthorizer.LoginForPull (c : Collab) (w : World) (a : DockerAuthorizer)
    (repo : String) : MethodResult :=
  let r := DockerAuthorizer.login c w a a.PullCredentials repo
  match r.err with
  | some err => ⟨r.recv, r.world, some err⟩
  | none =>
    ⟨r.recv, r.world.emit (Event.LogInfoF ("Login into docker repo \x27" ++ repo ++
      "\x27 for pull\n")), none⟩

/-- Go `(*DockerAuthorizer).LoginForPush`. -/
def DockerAuthorizer.LoginForPush (c : Collab) (w : World) (a : DockerAuthorizer)
    (repo : String) : MethodResult :=
  let r := DockerAuthorizer.login c w a a.PushCredentials repo
  match r.err with
  | some err => ⟨r.recv, r.world, some err⟩
  | none =>
    ⟨r.recv, r.world.emit (Event.LogInfoF ("Login into docker repo \x27" ++ repo ++
      "\x27 for push\n")), none⟩

/-- Go `(*DockerAuthorizer).Login`. -/
def DockerAuthorizer.Login (c : Collab) (w : World) (a : DockerAuthorizer)
    (repo : String) : MethodResult :=
  let r := DockerAuthorizer.login c w a a.Credentials repo
  match r.err with
  | some err => ⟨r.recv, r.world, some err⟩
  | none =>
    ⟨r.recv, r.world.emit (Event.LogInfoF ("Login into docker repo \x27" ++ repo ++
      "\x27\n")), none⟩

/-! ## Operation entry points -/

/-- Go `GetBuildStagesDockerAuthorizer`. -/
def GetBuildStagesDockerAuthorizer (c : Collab) (w : World)
    (projectTmpDir pullUsernameOption pullPasswordOption : String) :
    World × Except GoError DockerAuthorizer :=
  match getPullCredentials w.env c.IsGCR pullUsernameOption pullPasswordOption with
  | .error err => (w, .error ("cannot get docker credentials for pull: " ++ err))
  | .ok pullCredentials => getDockerAuthorizer c w projectTmpDir none pullCredentials none

/-- Go `GetImagePublishDockerAuthorizer`. -/
def GetImagePublishDockerAuthorizer (c : Collab) (w : World)
    (projectTmpDir pushUsernameOption pushPasswordOption repo : String) :
    World × Except GoError DockerAuthorizer :=
  match getPushCredentials w.env c.IsGCR pushUsernameOption pushPasswordOption repo with
  | .error err => (w, .error ("cannot get docker credentials for push: " ++ err))
  | .ok pushCredentials => getDockerAuthorizer c w projectTmpDir none none pushCredentials

/-- Go `GetBuildAndPublishDockerAuthorizer`. -/
def GetBuildAndPublishDockerAuthorizer (c : Collab) (w : World)
    (projectTmpDir pullUsernameOption pullPasswordOption pushUsernameOption
      pushPasswordOption repo : String) :
    World × Except GoError DockerAuthorizer :=
  match getPullCredentials w.env c.IsGCR pullUsernameOption pullPasswordOption with
  | .error err => (w, .error ("cannot get docker credentials for pull: " ++ err))
  | .ok pullCredentials =>
    match getPushCredentials w.env c.IsGCR pushUsernameOption pushPasswordOption repo with
    | .error err => (w, .error ("cannot get docker credentials for push: " ++ err))
    | .ok pushCredentials =>
      getDockerAuthorizer c w projectTmpDir none pullCredentials pushCredentials

/-- Go `GetPurgeDockerAuthorizer`. -/
def GetPurgeDockerAuthorizer (c : Collab) (w : World)
    (projectTmpDir purgeUsernameOption purgePasswordOption : String) :
    World × Except GoError DockerAuthorizer :=
  match getPurgeCredentials w.env c.IsGCR purgeUsernameOption purgePasswordOption with
  | .error err => (w, .error ("cannot get docker credentials for purge: " ++ err))
  | .ok credentials => getDockerAuthorizer c w projectTmpDir credentials none none

/-- Go `GetSyncDockerAuthorizer`. -/
def GetSyncDockerAuthorizer (c : Collab) (w : World)
    (projectTmpDir syncUsernameOption syncPasswordOption repo : String) :
    World × Except GoError DockerAuthorizer :=
  match getSyncCredentials w.env c.IsGCR syncUsernameOption syncPasswordOption repo with
  | .error err => (w, .error ("cannot get docker credentials for sync: " ++ err))
  | .ok credentials => getDockerAuthorizer c w projectTmpDir credentials none none

/-- Go `GetCleanupDockerAuthorizer`. -/
def GetCleanupDockerAuthorizer (c : Collab) (w : World)
    (projectTmpDir cleanupUsernameOption cleanupPasswordOption repo : String) :
    World × Except GoError DockerAuthorizer :=
  match getCleanupCredentials w.env c.IsGCR cleanupUsernameOption cleanupPasswordOption repo with
  | .error err => (w, .error ("cannot get docker credentials for cleanup: " ++ err))
  | .ok credentials => getDockerAuthorizer c w projectTmpDir credentials none none

/-- Go `GetDeployDockerAuthorizer`. -/
def GetDeployDockerAuthorizer (c : Collab) (w : World)
    (projectTmpDir usernameOption passwordOption repo : String) :
    World × Except GoError DockerAuthorizer :=
  match getDeployCredentials w.env c.IsGCR usernameOption passwordOption repo with
  | .error err => (w, .error ("cannot get docker credentials for deploy: " ++ err))
  | .ok credentials => getDockerAuthorizer c w projectTmpDir credentials none none

/-! ## Vocabulary of the statements -/

/-- The `os.Mkdir` calls in a trace. -/
def mkdirCalls (t : List Event) : List Event :=
  t.filter (fun e => match e with | Event.Mkdir _ _ => true | _ => false)

/-- The `docker.Login` and `docker.Init` calls in a trace, in order. -/
def dockerCalls (t : List Event) : List Event :=
  t.filter (fun e => match e with | Event.Login _ _ _ => true | Event.Init _ => true | _ => false)

/-- Invokes the method `m` on a receiver `n` times in a row, stopping at the first call
that returns an error. -/
def callTimes (m : World → DockerAuthorizer → MethodResult) :
    Nat → World → DockerAuthorizer → MethodResult
  | 0, w, a => ⟨a, w, none⟩
  | n + 1, w, a =>
    let r := callTimes m n w a
    match r.err with
    | some err => ⟨r.recv, r.world, some err⟩
    | none => m r.world r.recv

/-- An environment given by a list of `KEY=value` bindings; everything else is unset. -/
def envOf (bindings : List (String × String)) : Env :=
  fun key => match bindings.lookup key with
    | some value => value
    | none => ""

/-- The resolver result `r` is "no credentials", or the error with which the provider
classifier failed on the (non-empty) repo. -/
def NoCredentialsOrClassifierError (IsGCR : Classifier) (repo : String)
    (r : Except GoError (Option DockerCredentials)) : Prop :=
  r = .ok none ∨ ∃ err, repo ≠ "" ∧ IsGCR repo = .error err ∧ r = .error err

/-- What a skipped login leaves behind, seen from `w` and `a`: success, the receiver as it
was, the environment as it was, and not one more `docker.Login`, `docker.Init` or
`os.Mkdir` call in the trace. -/
def SkippedLogin (w : World) (a : DockerAuthorizer) (r : MethodResult) : Prop :=
  r.err = none ∧ r.recv = a ∧ r.world.env = w.env ∧
  dockerCalls r.world.trace = dockerCalls w.trace ∧
  mkdirCalls r.world.trace = mkdirCalls w.trace

/-- A world with the given bindings in its environment and nothing done yet. -/
def freshWorld (bindings : List (String × String)) : World :=
  { env := envOf bindings, trace := [] }

/-- Collaborators for the examples: the classifier answers `false`, `os.Mkdir` fails on
every path, `docker.Init` and `docker.Login` succeed. -/
def quietCollab : Collab :=
  { IsGCR := fun _ => .ok false
    Mkdir := fun _ _ => some "mkdir: permission denied"
    Init := fun _ _ => none
    Login := fun _ _ _ _ => none }

/-- The lines handed to `logger.LogInfoF` in a trace, oldest first. -/
def logLines (t : List Event) : List String :=
  t.filterMap (fun e => match e with | Event.LogInfoF line => some line | _ => none)

/-- Collaborators for the examples: the classifier answers `true` on every repo, and
`os.Mkdir`, `docker.Init` and `docker.Login` succeed. -/
def gcrCollab : Collab :=
  { IsGCR := fun _ => .ok true
    Mkdir := fun _ _ => none
    Init := fun _ _ => none
    Login := fun _ _ _ _ => none }

/-- The number of populated slots among `Credentials`, `PullCredentials` and
`PushCredentials`. -/
def populatedSlots (a : DockerAuthorizer) : Nat :=
  (if a.Credentials.isSome then 1 else 0) + (if a.PullCredentials.isSome then 1 else 0) +
    (if a.PushCredentials.isSome then 1 else 0)

/-- A credential set with both fields non-empty. -/
def Filled (creds : DockerCredentials) : Prop :=
  creds.Username ≠ "" ∧ creds.Password ≠ ""

/-- Every populated slot of the Authorizer holds a credential set with both fields
non-empty. -/
def SlotsFilled (a : DockerAuthorizer) : Prop :=
  ∀ creds, (a.Credentials = some creds ∨ a.PullCredentials = some creds ∨
    a.PushCredentials = some creds) → Filled creds

/-- The login sequence on credentials `creds` and repo `repo`, as seen in the result `r` of
a login method started in world `w` on receiver `a`, with `line` the log line of the
method: `docker.Login` is called first; if it fails with `err`, `r` returns `err` and the
trace has gained that call only; if it succeeds, `docker.Init` is called once on the
configuration directory; if that fails with `err`, `r` returns `err` and nothing is logged;
if it succeeds, `line` is logged and `r` returns nil. The receiver and the environment are
as before throughout. -/
def LoginSequenced (c : Collab) (w : World) (a : DockerAuthorizer) (creds : DockerCredentials)
    (repo line : String) (r : MethodResult) : Prop :=
  r.recv = a ∧ r.world.env = w.env ∧
  (∀ err, c.Login w creds.Username creds.Password repo = some err →
    r.err = some err ∧
    r.world.trace = w.trace ++ [Event.Login creds.Username creds.Password repo]) ∧
  (c.Login w creds.Username creds.Password repo = none →
    (∀ err, c.Init (w.emit (Event.Login creds.Username creds.Password repo))
        a.HostDockerConfigDir = some err →
      r.err = some err ∧
      r.world.trace = w.trace ++ [Event.Login creds.Username creds.Password repo,
        Event.Init a.HostDockerConfigDir]) ∧
    (c.Init (w.emit (Event.Login creds.Username creds.Password repo))
        a.HostDockerConfigDir = none →
      r.err = none ∧
      r.world.trace = w.trace ++ [Event.Login creds.Username creds.Password repo,
        Event.Init a.HostDockerConfigDir, Event.LogInfoF line]))

/-- Collaborators for the examples: `docker.Login` is refused, everything else succeeds and
the classifier answers `false`. -/
def refusingCollab : Collab :=
  { IsGCR := fun _ => .ok false
    Mkdir := fun _ _ => none
    Init := fun _ _ => none
    Login := fun _ _ _ _ => some "unauthorized: authentication required" }

/-- Collaborators for the examples: the classifier fails on every repo, `os.Mkdir`,
`docker.Init` and `docker.Login` succeed. -/
def brokenClassifierCollab : Collab :=
  { IsGCR := fun _ => .error "invalid reference format"
    Mkdir := fun _ _ => none
    Init := fun _ _ => none
    Login := fun _ _ _ _ => none }

/-- Collaborators for the examples: `docker.Init` fails, `os.Mkdir` and `docker.Login`
succeed and the classifier answers `false`. -/
def initFailsCollab : Collab :=
  { IsGCR := fun _ => .ok false
    Mkdir := fun _ _ => none
    Init := fun _ _ => some "cannot read config.json"
    Login := fun _ _ _ _ => none }

/-- The error message `msg` of a failed construction, by cause: a failure `err` of
`os.Mkdir` on the scratch directory reaches the caller as `error creating tmp dir <dir> for
docker config: ` followed by `err`; a failure of `docker.Init` reaches the caller as it
is. -/
def ConstructionError (c : Collab) (w : World) (projectTmpDir : String) (msg : GoError) :
    Prop :=
  (∃ err, c.Mkdir w (pathJoin [projectTmpDir, "docker"]) = some err ∧
    msg = "error creating tmp dir " ++ pathJoin [projectTmpDir, "docker"] ++
      " for docker config: " ++ err) ∨
  (∃ w1 dir, c.Init w1 dir = some msg)

/-- The error message `msg` of an entry point, by cause: a failure `err` of the classifier
on the (non-empty) repo reaches the caller as `context` followed by `err`; the other causes
are those of the construction. -/
def EntryPointError (c : Collab) (w : World) (projectTmpDir repo context : String)
    (msg : GoError) : Prop :=
  (∃ err, repo ≠ "" ∧ c.IsGCR repo = .error err ∧ msg = context ++ err) ∨
  ConstructionError c w projectTmpDir msg

/-! ## Paths: the fuel of `path.Clean` is enough -/

/-- A path element that starts at `r` with a character other than `/` has at least that
character, so copying it advances the read index. -/
theorem takeWhile_drop_pos (path : List Char) (r : Nat) (hr : r < path.length)
    (hne : ¬ path.getD r ' ' = '/') :
    0 < ((path.drop r).takeWhile (fun ch => ch != '/')).length := by
  have hd : path.drop r = path.getD r ' ' :: path.drop (r + 1) := by
    rw [List.getD_eq_getElem _ _ hr]
    exact List.drop_eq_getElem_cons hr
  have hb : (path.getD r ' ' != '/') = true := bne_iff_ne.mpr hne
  rw [hd, List.takeWhile_cons]
  simp only [hb, if_true, List.length_cons]
  omega

/-- With `n - r` units of fuel the loop of `path.Clean` has run to its end: any extra fuel
leaves the result as it is. -/
theorem cleanLoop_fuel (path : List Char) (rooted : Bool) (extra : Nat) :
    ∀ (fuel r : Nat) (out : List Char) (dotdot : Nat), path.length ≤ r + fuel →
      cleanLoop path rooted (fuel + extra) r out dotdot
        = cleanLoop path rooted fuel r out dotdot := by
  intro fuel
  induction fuel with
  | zero =>
    intro r out dotdot h
    cases extra with
    | zero => rfl
    | succ k =>
      have : ¬ r < path.length := by omega
      simp [cleanLoop, this]
  | succ k ih =>
    intro r out dotdot h
    have e : k + 1 + extra = (k + extra) + 1 := by omega
    rw [e]
    unfold cleanLoop
    by_cases hr : r < path.length
    · simp only [hr, if_true]
      split_ifs with h1
      all_goals first
        | exact ih _ _ _ (by omega)
        | exact ih _ _ _ (by have := takeWhile_drop_pos path r hr h1; omega)
    · simp [hr]

/-! ## Credential resolution: theorems -/

/-- C1. Explicit override wins for every operation kind: when the username option and the
password option are both non-empty, each of the pull, push, sync, deploy, purge and cleanup
resolvers returns, without error, exactly the pair of the two options, whatever the
environment, the repo and the provider classifier. -/
theorem C1_explicit_override_wins (env : Env) (IsGCR : Classifier)
    (usernameOption passwordOption repo : String)
    (hu : usernameOption ≠ "") (hp : passwordOption ≠ "") :
    getPullCredentials env IsGCR usernameOption passwordOption
        = .ok (some { Username := usernameOption, Password := passwordOption }) ∧
    getPushCredentials env IsGCR usernameOption passwordOption repo
        = .ok (some { Username := usernameOption, Password := passwordOption }) ∧
    getSyncCredentials env IsGCR usernameOption passwordOption repo
        = .ok (some { Username := usernameOption, Password := passwordOption }) ∧
    getDeployCredentials env IsGCR usernameOption passwordOption repo
        = .ok (some { Username := usernameOption, Password := passwordOption }) ∧
    getPurgeCredentials env IsGCR usernameOption passwordOption
        = .ok (some { Username := usernameOption, Password := passwordOption }) ∧
    getCleanupCredentials env IsGCR usernameOption passwordOption repo
        = .ok (some { Username := usernameOption, Password := passwordOption }) := by
  simp [getPullCredentials, getPushCredentials, getSyncCredentials, getDeployCredentials,
    getPurgeCredentials, getCleanupCredentials, getDefaultCredentials,
    getSpecifiedCredentials, hu, hp]

/-- C1 at a concrete input: options `alice`/`s3cret` against a CI environment, a cleanup
password, and a classifier that fails on every repo. -/
theorem C1_explicit_override_wins_witness :
    ("alice" ≠ "" ∧ "s3cret" ≠ "") ∧
    getPushCredentials
        (envOf [("CI_REGISTRY", "https://gitlab.example.com"), ("CI_JOB_TOKEN", "tok123"),
                ("WERF_CLEANUP_REGISTRY_PASSWORD", "pw")])
        (fun _ => .error "bad repo") "alice" "s3cret" "eu.gcr.io/x/y"
      = .ok (some { Username := "alice", Password := "s3cret" }) ∧
    getCleanupCredentials
        (envOf [("CI_REGISTRY", "https://gitlab.example.com"), ("CI_JOB_TOKEN", "tok123"),
                ("WERF_CLEANUP_REGISTRY_PASSWORD", "pw")])
        (fun _ => .error "bad repo") "alice" "s3cret" "eu.gcr.io/x/y"
      = .ok (some { Username := "alice", Password := "s3cret" }) :=
  ⟨⟨by decide, by decide⟩,
    (C1_explicit_override_wins _ _ "alice" "s3cret" "eu.gcr.io/x/y" (by decide) (by decide)).2.1,
    (C1_explicit_override_wins _ _ "alice" "s3cret" "eu.gcr.io/x/y" (by decide) (by decide)).2.2.2.2.2⟩

/-- C2. Cleanup password rule: with explicit credentials absent (the username option or the
password option is empty) and `WERF_CLEANUP_REGISTRY_PASSWORD` a non-empty string,
`getCleanupCredentials` returns, without error, exactly the pair `werf-cleanup` and that
password, for every other environment variable, every repo and every classifier. -/
theorem C2_cleanup_password_rule (env : Env) (IsGCR : Classifier)
    (usernameOption passwordOption repo : String)
    (habsent : usernameOption = "" ∨ passwordOption = "")
    (hpw : env "WERF_CLEANUP_REGISTRY_PASSWORD" ≠ "") :
    getCleanupCredentials env IsGCR usernameOption passwordOption repo
      = .ok (some { Username := "werf-cleanup",
                    Password := env "WERF_CLEANUP_REGISTRY_PASSWORD" }) := by
  have hspec : getSpecifiedCredentials usernameOption passwordOption = none := by
    unfold getSpecifiedCredentials
    rcases habsent with h | h <;> simp [h]
  simp [getCleanupCredentials, hspec, hpw]

/-- C2 at a concrete input: a half-supplied option pair, CI variables set, cleanup password
`pw`, and a classifier that fails. -/
theorem C2_cleanup_password_rule_witness :
    getCleanupCredentials
        (envOf [("WERF_CLEANUP_REGISTRY_PASSWORD", "pw"),
                ("CI_REGISTRY", "https://gitlab.example.com"), ("CI_JOB_TOKEN", "tok123")])
        (fun _ => .error "bad repo") "alice" "" "registry.example.com/app"
      = .ok (some { Username := "werf-cleanup", Password := "pw" }) :=
  C2_cleanup_password_rule
    (envOf [("WERF_CLEANUP_REGISTRY_PASSWORD", "pw"),
            ("CI_REGISTRY", "https://gitlab.example.com"), ("CI_JOB_TOKEN", "tok123")])
    (fun _ => .error "bad repo") "alice" "" "registry.example.com/app"
    (Or.inr rfl) (by decide)

/-- C3. Credential-less provider short-circuits auto-login for push, sync and deploy: with
explicit credentials absent, a non-empty repo and a classifier that answers `true` for it,
`getPushCredentials`, `getSyncCredentials` and `getDeployCredentials` return "no
credentials" without error, in every environment. -/
theorem C3_provider_short_circuit (env : Env) (IsGCR : Classifier)
    (usernameOption passwordOption repo : String)
    (habsent : usernameOption = "" ∨ passwordOption = "")
    (hrepo : repo ≠ "") (hgcr : IsGCR repo = .ok true) :
    getPushCredentials env IsGCR usernameOption passwordOption repo = .ok none ∧
    getSyncCredentials env IsGCR usernameOption passwordOption repo = .ok none ∧
    getDeployCredentials env IsGCR usernameOption passwordOption repo = .ok none := by
  have hspec : getSpecifiedCredentials usernameOption passwordOption = none := by
    unfold getSpecifiedCredentials
    rcases habsent with h | h <;> simp [h]
  simp [getPushCredentials, getSyncCredentials, getDeployCredentials, getDefaultCredentials,
    isGCR, hspec, hrepo, hgcr]

/-- C3 at a concrete input: both CI variables set, auto-login not disabled, and the repo
`eu.gcr.io/x/y` classified as credential-less. -/
theorem C3_provider_short_circuit_witness :
    getPushCredentials
        (envOf [("CI_REGISTRY", "https://gitlab.example.com"), ("CI_JOB_TOKEN", "tok123")])
        (fun _ => .ok true) "" "" "eu.gcr.io/x/y" = .ok none ∧
    getDefaultAutologinCredentials
        (envOf [("CI_REGISTRY", "https://gitlab.example.com"), ("CI_JOB_TOKEN", "tok123")])
      = .ok (some { Username := "gitlab-ci-token", Password := "tok123" }) :=
  ⟨(C3_provider_short_circuit
      (envOf [("CI_REGISTRY", "https://gitlab.example.com"), ("CI_JOB_TOKEN", "tok123")])
      (fun _ => .ok true) "" "" "eu.gcr.io/x/y" (Or.inl rfl) (by decide) rfl).1,
    by decide⟩

/-- C4, as stated, fails: with empty options, the repo `eu.gcr.io/x/y` classified as
credential-less and `WERF_CLEANUP_REGISTRY_PASSWORD=pw`, `getCleanupCredentials` returns
the pair `werf-cleanup`/`pw`, not "no credentials". -/
theorem C4_counterexample :
    (("" : String) = "" ∨ ("" : String) = "") ∧ ("eu.gcr.io/x/y" : String) ≠ "" ∧
    (fun _ => .ok true : Classifier) "eu.gcr.io/x/y" = .ok true ∧
    getCleanupCredentials (envOf [("WERF_CLEANUP_REGISTRY_PASSWORD", "pw")])
        (fun _ => .ok true) "" "" "eu.gcr.io/x/y"
      = .ok (some { Username := "werf-cleanup", Password := "pw" }) ∧
    getCleanupCredentials (envOf [("WERF_CLEANUP_REGISTRY_PASSWORD", "pw")])
        (fun _ => .ok true) "" "" "eu.gcr.io/x/y" ≠ .ok none := by
  refine ⟨Or.inl rfl, by decide, rfl, by decide, by decide⟩

/-- C4, amended. Credential-less provider for cleanup: with explicit credentials absent,
`WERF_CLEANUP_REGISTRY_PASSWORD` empty or unset, a non-empty repo and a classifier that
answers `true` for it, `getCleanupCredentials` returns "no credentials" without error,
whatever the CI variables hold. -/
theorem C4_cleanup_provider_short_circuit (env : Env) (IsGCR : Classifier)
    (usernameOption passwordOption repo : String)
    (habsent : usernameOption = "" ∨ passwordOption = "")
    (hpw : env "WERF_CLEANUP_REGISTRY_PASSWORD" = "")
    (hrepo : repo ≠ "") (hgcr : IsGCR repo = .ok true) :
    getCleanupCredentials env IsGCR usernameOption passwordOption repo = .ok none := by
  have hspec : getSpecifiedCredentials usernameOption passwordOption = none := by
    unfold getSpecifiedCredentials
    rcases habsent with h | h <;> simp [h]
  simp [getCleanupCredentials, isGCR, hspec, hpw, hrepo, hgcr]

/-- C4, amended, at a concrete input: both CI variables set, auto-login not disabled, no
cleanup password, repo `eu.gcr.io/x/y` classified as credential-less. -/
theorem C4_cleanup_provider_short_circuit_witness :
    getCleanupCredentials
        (envOf [("CI_REGISTRY", "https://gitlab.example.com"), ("CI_JOB_TOKEN", "tok123")])
        (fun _ => .ok true) "" "" "eu.gcr.io/x/y" = .ok none :=
  C4_cleanup_provider_short_circuit
    (envOf [("CI_REGISTRY", "https://gitlab.example.com"), ("CI_JOB_TOKEN", "tok123")])
    (fun _ => .ok true) "" "" "eu.gcr.io/x/y" (Or.inl rfl) (by decide) (by decide) rfl

/-- C5. Disabling CI auto-login: when `WERF_IGNORE_CI_DOCKER_AUTOLOGIN` is non-empty,
`getDefaultAutologinCredentials` returns "no credentials" whatever `CI_REGISTRY` and
`CI_JOB_TOKEN` hold; hence, with explicit credentials absent, pull and purge return "no
credentials", push, sync and deploy return "no credentials" or the classifier error, and so
does cleanup when `WERF_CLEANUP_REGISTRY_PASSWORD` is empty: none of them returns the pair
`gitlab-ci-token`/`CI_JOB_TOKEN`. -/
theorem C5_ignore_flag_disables_autologin (env : Env) (IsGCR : Classifier)
    (usernameOption passwordOption repo : String)
    (hign : env "WERF_IGNORE_CI_DOCKER_AUTOLOGIN" ≠ "") :
    getDefaultAutologinCredentials env = .ok none ∧
    ((usernameOption = "" ∨ passwordOption = "") →
      getPullCredentials env IsGCR usernameOption passwordOption = .ok none ∧
      getPurgeCredentials env IsGCR usernameOption passwordOption = .ok none ∧
      NoCredentialsOrClassifierError IsGCR repo
        (getPushCredentials env IsGCR usernameOption passwordOption repo) ∧
      NoCredentialsOrClassifierError IsGCR repo
        (getSyncCredentials env IsGCR usernameOption passwordOption repo) ∧
      NoCredentialsOrClassifierError IsGCR repo
        (getDeployCredentials env IsGCR usernameOption passwordOption repo) ∧
      (env "WERF_CLEANUP_REGISTRY_PASSWORD" = "" →
        NoCredentialsOrClassifierError IsGCR repo
          (getCleanupCredentials env IsGCR usernameOption passwordOption repo)) ∧
      (∀ r ∈ [getPullCredentials env IsGCR usernameOption passwordOption,
              getPurgeCredentials env IsGCR usernameOption passwordOption,
              getPushCredentials env IsGCR usernameOption passwordOption repo,
              getSyncCredentials env IsGCR usernameOption passwordOption repo,
              getDeployCredentials env IsGCR usernameOption passwordOption repo],
        r ≠ .ok (some { Username := "gitlab-ci-token", Password := env "CI_JOB_TOKEN" })) ∧
      (env "WERF_CLEANUP_REGISTRY_PASSWORD" = "" →
        getCleanupCredentials env IsGCR usernameOption passwordOption repo
          ≠ .ok (some { Username := "gitlab-ci-token", Password := env "CI_JOB_TOKEN" }))) := by
  have hauto : getDefaultAutologinCredentials env = .ok none := by
    simp [getDefaultAutologinCredentials, hign]
  refine ⟨hauto, fun habsent => ?_⟩
  have hspec : getSpecifiedCredentials usernameOption passwordOption = none := by
    unfold getSpecifiedCredentials
    rcases habsent with h | h <;> simp [h]
  have hdef : NoCredentialsOrClassifierError IsGCR repo
      (getDefaultCredentials env IsGCR usernameOption passwordOption repo) := by
    unfold NoCredentialsOrClassifierError getDefaultCredentials isGCR
    rw [hspec]
    by_cases hrepo : repo = ""
    · simp [hrepo, hauto]
    · rcases hcls : IsGCR repo with err | b
      · right; exact ⟨err, hrepo, rfl, by simp [hrepo, hcls]⟩
      · cases b <;> simp [hrepo, hcls, hauto]
  have hclean : env "WERF_CLEANUP_REGISTRY_PASSWORD" = "" →
      getCleanupCredentials env IsGCR usernameOption passwordOption repo
        = getDefaultCredentials env IsGCR usernameOption passwordOption repo := by
    intro hpw
    simp [getCleanupCredentials, getDefaultCredentials, hspec, hpw]
  have hne : ∀ r, NoCredentialsOrClassifierError IsGCR repo r →
      r ≠ .ok (some { Username := "gitlab-ci-token", Password := env "CI_JOB_TOKEN" }) := by
    rintro r (h | ⟨err, -, -, h⟩) <;> simp [h]
  have hpull : getPullCredentials env IsGCR usernameOption passwordOption = .ok none := by
    simp [getPullCredentials, hspec, hauto]
  have hpurge : getPurgeCredentials env IsGCR usernameOption passwordOption = .ok none := by
    simp [getPurgeCredentials, hspec]
  refine ⟨hpull, hpurge, hdef, hdef, hdef, fun hpw => hclean hpw ▸ hdef, ?_,
    fun hpw => hne _ (hclean hpw ▸ hdef)⟩
  intro r hr
  simp only [List.mem_cons, List.mem_singleton, List.not_mem_nil, or_false] at hr
  rcases hr with h | h | h | h | h
  · rw [h, hpull]; simp
  · rw [h, hpurge]; simp
  · rw [h]; exact hne _ hdef
  · rw [h]; exact hne _ hdef
  · rw [h]; exact hne _ hdef

/-- C5 at a concrete input: the flag is `1`, both CI variables are set, and pull resolution
with empty options returns "no credentials". -/
theorem C5_ignore_flag_disables_autologin_witness :
    getDefaultAutologinCredentials
        (envOf [("WERF_IGNORE_CI_DOCKER_AUTOLOGIN", "1"),
                ("CI_REGISTRY", "https://gitlab.example.com"), ("CI_JOB_TOKEN", "tok123")])
      = .ok none ∧
    getPullCredentials
        (envOf [("WERF_IGNORE_CI_DOCKER_AUTOLOGIN", "1"),
                ("CI_REGISTRY", "https://gitlab.example.com"), ("CI_JOB_TOKEN", "tok123")])
        (fun _ => .ok false) "" "" = .ok none :=
  ⟨(C5_ignore_flag_disables_autologin
      (envOf [("WERF_IGNORE_CI_DOCKER_AUTOLOGIN", "1"),
              ("CI_REGISTRY", "https://gitlab.example.com"), ("CI_JOB_TOKEN", "tok123")])
      (fun _ => .ok false) "" "" "" (by decide)).1,
    ((C5_ignore_flag_disables_autologin
      (envOf [("WERF_IGNORE_CI_DOCKER_AUTOLOGIN", "1"),
              ("CI_REGISTRY", "https://gitlab.example.com"), ("CI_JOB_TOKEN", "tok123")])
      (fun _ => .ok false) "" "" "" (by decide)).2 (Or.inl rfl)).1⟩

/-- C6. CI auto-login for pull: with explicit credentials absent and
`WERF_IGNORE_CI_DOCKER_AUTOLOGIN` empty or unset, `getPullCredentials` returns, without
error, the pair `gitlab-ci-token`/`CI_JOB_TOKEN` when `CI_REGISTRY` and `CI_JOB_TOKEN` are
both non-empty, and "no credentials" when either of them is empty. -/
theorem C6_pull_ci_autologin (env : Env) (IsGCR : Classifier)
    (usernameOption passwordOption : String)
    (habsent : usernameOption = "" ∨ passwordOption = "")
    (hign : env "WERF_IGNORE_CI_DOCKER_AUTOLOGIN" = "") :
    ((env "CI_REGISTRY" ≠ "" ∧ env "CI_JOB_TOKEN" ≠ "") →
      getPullCredentials env IsGCR usernameOption passwordOption
        = .ok (some { Username := "gitlab-ci-token", Password := env "CI_JOB_TOKEN" })) ∧
    ((env "CI_REGISTRY" = "" ∨ env "CI_JOB_TOKEN" = "") →
      getPullCredentials env IsGCR usernameOption passwordOption = .ok none) := by
  have hspec : getSpecifiedCredentials usernameOption passwordOption = none := by
    unfold getSpecifiedCredentials
    rcases habsent with h | h <;> simp [h]
  constructor
  · rintro ⟨hreg, htok⟩
    simp [getPullCredentials, getDefaultAutologinCredentials, hspec, hign, hreg, htok]
  · rintro (h | h) <;>
      simp [getPullCredentials, getDefaultAutologinCredentials, hspec, hign, h]

/-- C6 at the scenario of the specification: `CI_REGISTRY=https://gitlab.example.com`,
`CI_JOB_TOKEN=tok123`, no options, the flag unset. -/
theorem C6_pull_ci_autologin_witness :
    getPullCredentials
        (envOf [("CI_REGISTRY", "https://gitlab.example.com"), ("CI_JOB_TOKEN", "tok123")])
        (fun _ => .ok false) "" ""
      = .ok (some { Username := "gitlab-ci-token", Password := "tok123" }) :=
  (C6_pull_ci_autologin
    (envOf [("CI_REGISTRY", "https://gitlab.example.com"), ("CI_JOB_TOKEN", "tok123")])
    (fun _ => .ok false) "" "" (Or.inl rfl) (by decide)).1 ⟨by decide, by decide⟩

/-- C7. Purge uses only the explicit pair: `getPurgeCredentials` never returns an error; it
returns the option pair if and only if both options are non-empty, and "no credentials"
otherwise; and its result is the same under any two environments and classifiers, so with
both CI variables set and auto-login not disabled, empty options still give "no
credentials". -/
theorem C7_purge_explicit_only (env env2 : Env) (IsGCR IsGCR2 : Classifier)
    (usernameOption passwordOption : String) :
    (∀ err, getPurgeCredentials env IsGCR usernameOption passwordOption ≠ .error err) ∧
    (getPurgeCredentials env IsGCR usernameOption passwordOption
        = .ok (some { Username := usernameOption, Password := passwordOption })
      ↔ (usernameOption ≠ "" ∧ passwordOption ≠ "")) ∧
    (¬ (usernameOption ≠ "" ∧ passwordOption ≠ "") →
      getPurgeCredentials env IsGCR usernameOption passwordOption = .ok none) ∧
    getPurgeCredentials env IsGCR usernameOption passwordOption
      = getPurgeCredentials env2 IsGCR2 usernameOption passwordOption ∧
    getPurgeCredentials
        (envOf [("CI_REGISTRY", "https://gitlab.example.com"), ("CI_JOB_TOKEN", "tok123")])
        IsGCR "" "" = .ok none := by
  refine ⟨fun err => by simp [getPurgeCredentials], ?_, ?_, rfl, by
    simp [getPurgeCredentials, getSpecifiedCredentials]⟩
  · by_cases h : usernameOption ≠ "" ∧ passwordOption ≠ ""
    · simp [getPurgeCredentials, getSpecifiedCredentials, h]
    · simp only [getPurgeCredentials, getSpecifiedCredentials, if_neg h, iff_false_right h]
      simp
  · intro h
    simp only [getPurgeCredentials, getSpecifiedCredentials, if_neg h]

/-! ## Directory selection: theorems -/

theorem mkdirCalls_append (t u : List Event) :
    mkdirCalls (t ++ u) = mkdirCalls t ++ mkdirCalls u := by
  simp [mkdirCalls]

theorem dockerCalls_append (t u : List Event) :
    dockerCalls (t ++ u) = dockerCalls t ++ dockerCalls u := by
  simp [dockerCalls]

/-- With `WERF_DOCKER_CONFIG` non-empty, `getDockerAuthorizer` is one `docker.Init` on that
directory, followed on success by the write of `DOCKER_CONFIG`. -/
theorem getDockerAuthorizer_of_config (c : Collab) (w : World) (projectTmpDir : String)
    (credentials pullCredentials pushCredentials : Option DockerCredentials)
    (hd : w.env "WERF_DOCKER_CONFIG" ≠ "") :
    getDockerAuthorizer c w projectTmpDir credentials pullCredentials pushCredentials =
      match c.Init w (w.env "WERF_DOCKER_CONFIG") with
      | some err => (w.emit (Event.Init (w.env "WERF_DOCKER_CONFIG")), .error err)
      | none =>
        ((w.emit (Event.Init (w.env "WERF_DOCKER_CONFIG"))).Setenv "DOCKER_CONFIG"
            (w.env "WERF_DOCKER_CONFIG"),
          .ok { HostDockerConfigDir := w.env "WERF_DOCKER_CONFIG",
                ExternalDockerConfig := true, Credentials := credentials,
                PullCredentials := pullCredentials, PushCredentials := pushCredentials }) := by
  simp only [getDockerAuthorizer, if_pos hd]

/-- With `WERF_DOCKER_CONFIG` empty and no credentials at all, `getDockerAuthorizer` is one
`docker.Init` on the home directory, followed on success by the write of `DOCKER_CONFIG`. -/
theorem getDockerAuthorizer_of_home (c : Collab) (w : World) (projectTmpDir : String)
    (hd : w.env "WERF_DOCKER_CONFIG" = "") :
    getDockerAuthorizer c w projectTmpDir none none none =
      match c.Init w (GetHomeDockerConfigDir w.env) with
      | some err => (w.emit (Event.Init (GetHomeDockerConfigDir w.env)), .error err)
      | none =>
        ((w.emit (Event.Init (GetHomeDockerConfigDir w.env))).Setenv "DOCKER_CONFIG"
            (GetHomeDockerConfigDir w.env),
          .ok { HostDockerConfigDir := GetHomeDockerConfigDir w.env,
                ExternalDockerConfig := true, Credentials := none,
                PullCredentials := none, PushCredentials := none }) := by
  simp [getDockerAuthorizer, hd]

/-- C8. `WERF_DOCKER_CONFIG` forces external mode: when it is a non-empty string `d`, then
for every temporary root and every combination of present and absent generic, pull and push
credentials `getDockerAuthorizer` makes no `os.Mkdir` call; every Authorizer it returns has
`ExternalDockerConfig = true` and `HostDockerConfigDir = d`; and it does return one
(carrying the three slots as passed) exactly when `docker.Init` succeeds on `d`. -/
theorem C8_werf_docker_config_forces_external (c : Collab) (w : World)
    (projectTmpDir : String)
    (credentials pullCredentials pushCredentials : Option DockerCredentials)
    (hd : w.env "WERF_DOCKER_CONFIG" ≠ "") :
    mkdirCalls
        (getDockerAuthorizer c w projectTmpDir credentials pullCredentials pushCredentials).1.trace
      = mkdirCalls w.trace ∧
    (∀ a, (getDockerAuthorizer c w projectTmpDir credentials pullCredentials pushCredentials).2
          = .ok a →
        a.ExternalDockerConfig = true ∧ a.HostDockerConfigDir = w.env "WERF_DOCKER_CONFIG") ∧
    (c.Init w (w.env "WERF_DOCKER_CONFIG") = none →
      (getDockerAuthorizer c w projectTmpDir credentials pullCredentials pushCredentials).2
        = .ok { HostDockerConfigDir := w.env "WERF_DOCKER_CONFIG",
                ExternalDockerConfig := true, Credentials := credentials,
                PullCredentials := pullCredentials, PushCredentials := pushCredentials }) ∧
    (∀ err, c.Init w (w.env "WERF_DOCKER_CONFIG") = some err →
      (getDockerAuthorizer c w projectTmpDir credentials pullCredentials pushCredentials).2
        = .error err) := by
  rw [getDockerAuthorizer_of_config c w projectTmpDir _ _ _ hd]
  rcases hinit : c.Init w (w.env "WERF_DOCKER_CONFIG") with _ | err
  · refine ⟨?_, ?_, fun _ => rfl, fun err h => (by cases h)⟩
    · simp [World.Setenv, World.emit, mkdirCalls]
    · intro a ha
      simp only [Except.ok.injEq] at ha
      subst ha
      exact ⟨rfl, rfl⟩
  · refine ⟨?_, fun a ha => (by cases ha), fun h => (by cases h), fun e h => ?_⟩
    · simp [World.emit, mkdirCalls]
    · cases h; rfl

/-- C8 at a concrete input: `WERF_DOCKER_CONFIG=/etc/docker`, push credentials present, and
an `os.Mkdir` that would fail if it were called. -/
theorem C8_werf_docker_config_forces_external_witness :
    (getDockerAuthorizer quietCollab (freshWorld [("WERF_DOCKER_CONFIG", "/etc/docker")])
        "/tmp/werf" none none (some { Username := "u", Password := "p" })).2
      = .ok { HostDockerConfigDir := "/etc/docker", ExternalDockerConfig := true,
              Credentials := none, PullCredentials := none,
              PushCredentials := some { Username := "u", Password := "p" } } ∧
    mkdirCalls
        (getDockerAuthorizer quietCollab (freshWorld [("WERF_DOCKER_CONFIG", "/etc/docker")])
          "/tmp/werf" none none (some { Username := "u", Password := "p" })).1.trace
      = [] :=
  ⟨(C8_werf_docker_config_forces_external quietCollab
      (freshWorld [("WERF_DOCKER_CONFIG", "/etc/docker")]) "/tmp/werf" none none
      (some { Username := "u", Password := "p" }) (by decide)).2.2.1 rfl,
    (C8_werf_docker_config_forces_external quietCollab
      (freshWorld [("WERF_DOCKER_CONFIG", "/etc/docker")]) "/tmp/werf" none none
      (some { Username := "u", Password := "p" }) (by decide)).1⟩

/-- C9. Home fallback: when `WERF_DOCKER_CONFIG` is empty or unset and the generic, pull and
push credentials are all absent, then for every temporary root `getDockerAuthorizer` makes
no `os.Mkdir` call; every Authorizer it returns has `ExternalDockerConfig = true` and
`HostDockerConfigDir = path.Join(HOME, ".docker")`; and it does return one exactly when
`docker.Init` succeeds on that directory. -/
theorem C9_home_fallback (c : Collab) (w : World) (projectTmpDir : String)
    (hd : w.env "WERF_DOCKER_CONFIG" = "") :
    mkdirCalls (getDockerAuthorizer c w projectTmpDir none none none).1.trace
      = mkdirCalls w.trace ∧
    (∀ a, (getDockerAuthorizer c w projectTmpDir none none none).2 = .ok a →
        a.ExternalDockerConfig = true ∧
        a.HostDockerConfigDir = pathJoin [w.env "HOME", ".docker"]) ∧
    (c.Init w (pathJoin [w.env "HOME", ".docker"]) = none →
      (getDockerAuthorizer c w projectTmpDir none none none).2
        = .ok { HostDockerConfigDir := pathJoin [w.env "HOME", ".docker"],
                ExternalDockerConfig := true, Credentials := none,
                PullCredentials := none, PushCredentials := none }) ∧
    (∀ err, c.Init w (pathJoin [w.env "HOME", ".docker"]) = some err →
      (getDockerAuthorizer c w projectTmpDir none none none).2 = .error err) := by
  rw [getDockerAuthorizer_of_home c w projectTmpDir hd]
  show _ ∧ _ ∧ (c.Init w (GetHomeDockerConfigDir w.env) = none → _) ∧
    (∀ err, c.Init w (GetHomeDockerConfigDir w.env) = some err → _)
  rcases hinit : c.Init w (GetHomeDockerConfigDir w.env) with _ | err
  · refine ⟨?_, ?_, fun _ => rfl, fun err h => (by cases h)⟩
    · simp [World.Setenv, World.emit, mkdirCalls]
    · intro a ha
      simp only [Except.ok.injEq] at ha
      subst ha
      exact ⟨rfl, rfl⟩
  · refine ⟨?_, fun a ha => (by cases ha), fun h => (by cases h), fun e h => ?_⟩
    · simp [World.emit, mkdirCalls]
    · cases h; rfl

/-- C9 at a concrete input: `HOME=/home/user`, nothing else set, no credentials: the
Authorizer is external and its directory is `/home/user/.docker`. -/
theorem C9_home_fallback_witness :
    (getDockerAuthorizer quietCollab (freshWorld [("HOME", "/home/user")])
        "/tmp/werf" none none none).2
      = .ok { HostDockerConfigDir := "/home/user/.docker", ExternalDockerConfig := true,
              Credentials := none, PullCredentials := none, PushCredentials := none } ∧
    mkdirCalls
        (getDockerAuthorizer quietCollab (freshWorld [("HOME", "/home/user")])
          "/tmp/werf" none none none).1.trace
      = [] :=
  ⟨(C9_home_fallback quietCollab (freshWorld [("HOME", "/home/user")]) "/tmp/werf"
      (by decide)).2.2.1 rfl,
    (C9_home_fallback quietCollab (freshWorld [("HOME", "/home/user")]) "/tmp/werf"
      (by decide)).1⟩

/-! ## Login: theorems -/

/-- The private `login` does nothing at all when the configuration is external or the
credentials are absent. -/
theorem login_of_skip (c : Collab) (w : World) (a : DockerAuthorizer)
    (creds : Option DockerCredentials) (repo : String)
    (hskip : a.ExternalDockerConfig = true ∨ creds = none) :
    DockerAuthorizer.login c w a creds repo = ⟨a, w, none⟩ := by
  unfold DockerAuthorizer.login
  rcases hskip with h | h
  · rw [h]
  · rw [h]; cases a.ExternalDockerConfig <;> rfl

/-- A method that behaves as a skipped login from every world keeps doing so however many
times it is invoked. -/
theorem callTimes_skipped (m : World → DockerAuthorizer → MethodResult) (a : DockerAuthorizer)
    (hm : ∀ w, SkippedLogin w a (m w a)) (n : Nat) (w : World) :
    SkippedLogin w a (callTimes m n w a) := by
  induction n with
  | zero => exact ⟨rfl, rfl, rfl, rfl, rfl⟩
  | succ k ih =>
    obtain ⟨herr, hrecv, henv, hdock, hmk⟩ := ih
    have hstep := hm (callTimes m k w a).world
    simp only [callTimes, herr, hrecv]
    obtain ⟨h1, h2, h3, h4, h5⟩ := hstep
    exact ⟨h1, h2, h3.trans henv, h4.trans hdock, h5.trans hmk⟩

/-- C10. Skipped logins make no collaborator calls: for every Authorizer and repo, when
`ExternalDockerConfig` is true or the slot of the method is absent (`Credentials` for
`Login`, `PullCredentials` for `LoginForPull`, `PushCredentials` for `LoginForPush`), the
method returns a nil error, adds no `docker.Login` and no `docker.Init` call to the trace,
and leaves the Authorizer as it was; the same holds of `n` invocations in a row, for every
`n`. -/
theorem C10_skipped_login_makes_no_calls (c : Collab) (w : World) (a : DockerAuthorizer)
    (repo : String) (n : Nat) :
    ((a.ExternalDockerConfig = true ∨ a.Credentials = none) →
      SkippedLogin w a (DockerAuthorizer.Login c w a repo) ∧
      SkippedLogin w a (callTimes (fun w1 a1 => DockerAuthorizer.Login c w1 a1 repo) n w a)) ∧
    ((a.ExternalDockerConfig = true ∨ a.PullCredentials = none) →
      SkippedLogin w a (DockerAuthorizer.LoginForPull c w a repo) ∧
      SkippedLogin w a
        (callTimes (fun w1 a1 => DockerAuthorizer.LoginForPull c w1 a1 repo) n w a)) ∧
    ((a.ExternalDockerConfig = true ∨ a.PushCredentials = none) →
      SkippedLogin w a (DockerAuthorizer.LoginForPush c w a repo) ∧
      SkippedLogin w a
        (callTimes (fun w1 a1 => DockerAuthorizer.LoginForPush c w1 a1 repo) n w a)) := by
  refine ⟨fun h => ?_, fun h => ?_, fun h => ?_⟩
  · have hone : ∀ w1, SkippedLogin w1 a (DockerAuthorizer.Login c w1 a repo) := by
      intro w1
      simp [DockerAuthorizer.Login, login_of_skip c w1 a _ repo h, SkippedLogin, World.emit,
        dockerCalls, mkdirCalls]
    exact ⟨hone w, callTimes_skipped _ a hone n w⟩
  · have hone : ∀ w1, SkippedLogin w1 a (DockerAuthorizer.LoginForPull c w1 a repo) := by
      intro w1
      simp [DockerAuthorizer.LoginForPull, login_of_skip c w1 a _ repo h, SkippedLogin,
        World.emit, dockerCalls, mkdirCalls]
    exact ⟨hone w, callTimes_skipped _ a hone n w⟩
  · have hone : ∀ w1, SkippedLogin w1 a (DockerAuthorizer.LoginForPush c w1 a repo) := by
      intro w1
      simp [DockerAuthorizer.LoginForPush, login_of_skip c w1 a _ repo h, SkippedLogin,
        World.emit, dockerCalls, mkdirCalls]
    exact ⟨hone w, callTimes_skipped _ a hone n w⟩

/-- C10 at a concrete input: an external Authorizer that does hold push credentials, and
three `LoginForPush` calls in a row on it. -/
theorem C10_skipped_login_makes_no_calls_witness :
    SkippedLogin (freshWorld [])
      { HostDockerConfigDir := "/etc/docker", ExternalDockerConfig := true,
        Credentials := none, PullCredentials := none,
        PushCredentials := some { Username := "u", Password := "p" } }
      (callTimes (fun w1 a1 => DockerAuthorizer.LoginForPush quietCollab w1 a1 "r.example.com/app")
        3 (freshWorld [])
        { HostDockerConfigDir := "/etc/docker", ExternalDockerConfig := true,
          Credentials := none, PullCredentials := none,
          PushCredentials := some { Username := "u", Password := "p" } }) :=
  ((C10_skipped_login_makes_no_calls quietCollab (freshWorld [])
      { HostDockerConfigDir := "/etc/docker", ExternalDockerConfig := true,
        Credentials := none, PullCredentials := none,
        PushCredentials := some { Username := "u", Password := "p" } }
      "r.example.com/app" 3).2.2 (Or.inl rfl)).2

/-- With the configuration external or the credentials absent, a public login method is
exactly its log line: the receiver and the environment stay, and the trace gains that one
event. -/
theorem Login_of_skip (c : Collab) (w : World) (a : DockerAuthorizer) (repo : String)
    (hskip : a.ExternalDockerConfig = true ∨ a.Credentials = none) :
    DockerAuthorizer.Login c w a repo =
      ⟨a, w.emit (Event.LogInfoF ("Login into docker repo \x27" ++ repo ++ "\x27\n")), none⟩ := by
  simp [DockerAuthorizer.Login, login_of_skip c w a _ repo hskip]

theorem LoginForPull_of_skip (c : Collab) (w : World) (a : DockerAuthorizer) (repo : String)
    (hskip : a.ExternalDockerConfig = true ∨ a.PullCredentials = none) :
    DockerAuthorizer.LoginForPull c w a repo =
      ⟨a, w.emit (Event.LogInfoF ("Login into docker repo \x27" ++ repo ++
        "\x27 for pull\n")), none⟩ := by
  simp [DockerAuthorizer.LoginForPull, login_of_skip c w a _ repo hskip]

theorem LoginForPush_of_skip (c : Collab) (w : World) (a : DockerAuthorizer) (repo : String)
    (hskip : a.ExternalDockerConfig = true ∨ a.PushCredentials = none) :
    DockerAuthorizer.LoginForPush c w a repo =
      ⟨a, w.emit (Event.LogInfoF ("Login into docker repo \x27" ++ repo ++
        "\x27 for push\n")), none⟩ := by
  simp [DockerAuthorizer.LoginForPush, login_of_skip c w a _ repo hskip]

/-- C11, as stated, fails, at its own witness: empty options and the repo `eu.gcr.io/x/y`
classified as credential-less give, through `GetImagePublishDockerAuthorizer`, an external
Authorizer with `PushCredentials` absent and nothing logged so far; `LoginForPush` on it
returns nil and makes no `docker.Login` call, yet the log is not empty: it holds the line
`Login into docker repo 'eu.gcr.io/x/y' for push`. -/
theorem C11_counterexample :
    (GetImagePublishDockerAuthorizer gcrCollab (freshWorld [("HOME", "/home/user")])
        "/tmp/werf" "" "" "eu.gcr.io/x/y").2
      = .ok { HostDockerConfigDir := "/home/user/.docker", ExternalDockerConfig := true,
              Credentials := none, PullCredentials := none, PushCredentials := none } ∧
    logLines (GetImagePublishDockerAuthorizer gcrCollab (freshWorld [("HOME", "/home/user")])
        "/tmp/werf" "" "" "eu.gcr.io/x/y").1.trace = [] ∧
    (DockerAuthorizer.LoginForPush gcrCollab
        (GetImagePublishDockerAuthorizer gcrCollab (freshWorld [("HOME", "/home/user")])
          "/tmp/werf" "" "" "eu.gcr.io/x/y").1
        { HostDockerConfigDir := "/home/user/.docker", ExternalDockerConfig := true,
          Credentials := none, PullCredentials := none, PushCredentials := none }
        "eu.gcr.io/x/y").err = none ∧
    (DockerAuthorizer.LoginForPush gcrCollab
        (GetImagePublishDockerAuthorizer gcrCollab (freshWorld [("HOME", "/home/user")])
          "/tmp/werf" "" "" "eu.gcr.io/x/y").1
        { HostDockerConfigDir := "/home/user/.docker", ExternalDockerConfig := true,
          Credentials := none, PullCredentials := none, PushCredentials := none }
        "eu.gcr.io/x/y").world.trace
      = [Event.Init "/home/user/.docker", Event.Setenv "DOCKER_CONFIG" "/home/user/.docker",
         Event.LogInfoF "Login into docker repo \x27eu.gcr.io/x/y\x27 for push\n"] ∧
    logLines (DockerAuthorizer.LoginForPush gcrCollab
        (GetImagePublishDockerAuthorizer gcrCollab (freshWorld [("HOME", "/home/user")])
          "/tmp/werf" "" "" "eu.gcr.io/x/y").1
        { HostDockerConfigDir := "/home/user/.docker", ExternalDockerConfig := true,
          Credentials := none, PullCredentials := none, PushCredentials := none }
        "eu.gcr.io/x/y").world.trace ≠ [] := by
  refine ⟨by decide, by decide, by decide, by decide, by decide⟩

/-- C11, amended. Skipped logins log one line: when the slot of the method is absent or the
Authorizer is external, `Login`, `LoginForPull` and `LoginForPush` make no collaborator
call other than the logger, to which each hands exactly one line: `Login into docker repo
'<repo>'`, followed by ` for pull` or ` for push` for the two specific methods. -/
theorem C11_skipped_login_logs_one_line (c : Collab) (w : World) (a : DockerAuthorizer)
    (repo : String) :
    ((a.ExternalDockerConfig = true ∨ a.Credentials = none) →
      (DockerAuthorizer.Login c w a repo).world.trace
          = w.trace ++ [Event.LogInfoF ("Login into docker repo \x27" ++ repo ++ "\x27\n")] ∧
      logLines (DockerAuthorizer.Login c w a repo).world.trace
          = logLines w.trace ++ ["Login into docker repo \x27" ++ repo ++ "\x27\n"]) ∧
    ((a.ExternalDockerConfig = true ∨ a.PullCredentials = none) →
      (DockerAuthorizer.LoginForPull c w a repo).world.trace
          = w.trace ++
            [Event.LogInfoF ("Login into docker repo \x27" ++ repo ++ "\x27 for pull\n")] ∧
      logLines (DockerAuthorizer.LoginForPull c w a repo).world.trace
          = logLines w.trace ++ ["Login into docker repo \x27" ++ repo ++ "\x27 for pull\n"]) ∧
    ((a.ExternalDockerConfig = true ∨ a.PushCredentials = none) →
      (DockerAuthorizer.LoginForPush c w a repo).world.trace
          = w.trace ++
            [Event.LogInfoF ("Login into docker repo \x27" ++ repo ++ "\x27 for push\n")] ∧
      logLines (DockerAuthorizer.LoginForPush c w a repo).world.trace
          = logLines w.trace ++ ["Login into docker repo \x27" ++ repo ++ "\x27 for push\n"]) := by
  refine ⟨fun h => ?_, fun h => ?_, fun h => ?_⟩
  · rw [Login_of_skip c w a repo h]
    simp [World.emit, logLines]
  · rw [LoginForPull_of_skip c w a repo h]
    simp [World.emit, logLines]
  · rw [LoginForPush_of_skip c w a repo h]
    simp [World.emit, logLines]

/-- C11, amended, at the witness of the claim: `LoginForPush` on the Authorizer with
`PushCredentials` absent, from a world where nothing has happened, leaves a trace made of
the one log line. -/
theorem C11_skipped_login_logs_one_line_witness :
    (DockerAuthorizer.LoginForPush gcrCollab (freshWorld [])
        { HostDockerConfigDir := "/home/user/.docker", ExternalDockerConfig := true,
          Credentials := none, PullCredentials := none, PushCredentials := none }
        "eu.gcr.io/x/y").world.trace
      = [Event.LogInfoF "Login into docker repo \x27eu.gcr.io/x/y\x27 for push\n"] :=
  ((C11_skipped_login_logs_one_line gcrCollab (freshWorld [])
      { HostDockerConfigDir := "/home/user/.docker", ExternalDockerConfig := true,
        Credentials := none, PullCredentials := none, PushCredentials := none }
      "eu.gcr.io/x/y").2.2 (Or.inl rfl)).1

/-! ## Construction: shared lemmas -/

/-- With `WERF_DOCKER_CONFIG` empty and some credentials present, `getDockerAuthorizer` is
one `os.Mkdir` of `path.Join(projectTmpDir, "docker")`; when that succeeds, a log line and
one `docker.Init` on the directory; and when that succeeds too, the write of
`DOCKER_CONFIG`. -/
theorem getDockerAuthorizer_of_scratch (c : Collab) (w : World) (projectTmpDir : String)
    (credentials pullCredentials pushCredentials : Option DockerCredentials)
    (hd : w.env "WERF_DOCKER_CONFIG" = "")
    (hany : credentials ≠ none ∨ pullCredentials ≠ none ∨ pushCredentials ≠ none) :
    getDockerAuthorizer c w projectTmpDir credentials pullCredentials pushCredentials =
      match c.Mkdir w (pathJoin [projectTmpDir, "docker"]) with
      | some err =>
        (w.emit (Event.Mkdir (pathJoin [projectTmpDir, "docker"]) ModePerm),
          .error ("error creating tmp dir " ++ pathJoin [projectTmpDir, "docker"] ++
            " for docker config: " ++ err))
      | none =>
        match c.Init
            ((w.emit (Event.Mkdir (pathJoin [projectTmpDir, "docker"]) ModePerm)).emit
              (Event.LogInfoF ("Using tmp docker config at " ++
                pathJoin [projectTmpDir, "docker"] ++ "\n")))
            (pathJoin [projectTmpDir, "docker"]) with
        | some err =>
          ((((w.emit (Event.Mkdir (pathJoin [projectTmpDir, "docker"]) ModePerm)).emit
              (Event.LogInfoF ("Using tmp docker config at " ++
                pathJoin [projectTmpDir, "docker"] ++ "\n"))).emit
              (Event.Init (pathJoin [projectTmpDir, "docker"]))),
            .error err)
        | none =>
          ((((w.emit (Event.Mkdir (pathJoin [projectTmpDir, "docker"]) ModePerm)).emit
              (Event.LogInfoF ("Using tmp docker config at " ++
                pathJoin [projectTmpDir, "docker"] ++ "\n"))).emit
              (Event.Init (pathJoin [projectTmpDir, "docker"]))).Setenv "DOCKER_CONFIG"
              (pathJoin [projectTmpDir, "docker"]),
            .ok { HostDockerConfigDir := pathJoin [projectTmpDir, "docker"],
                  ExternalDockerConfig := false, Credentials := credentials,
                  PullCredentials := pullCredentials, PushCredentials := pushCredentials }) := by
  simp only [getDockerAuthorizer, hd, ne_eq, not_true_eq_false, if_false, if_pos hany]
  rcases c.Mkdir w (pathJoin [projectTmpDir, "docker"]) with _ | err
  · rfl
  · rfl

/-- The three branches of the directory selection cover every call. -/
theorem getDockerAuthorizer_cases (w : World)
    (credentials pullCredentials pushCredentials : Option DockerCredentials) :
    w.env "WERF_DOCKER_CONFIG" ≠ "" ∨
    (w.env "WERF_DOCKER_CONFIG" = "" ∧
      (credentials ≠ none ∨ pullCredentials ≠ none ∨ pushCredentials ≠ none)) ∨
    (w.env "WERF_DOCKER_CONFIG" = "" ∧
      credentials = none ∧ pullCredentials = none ∧ pushCredentials = none) := by
  by_cases hd : w.env "WERF_DOCKER_CONFIG" = ""
  · by_cases hany : credentials ≠ none ∨ pullCredentials ≠ none ∨ pushCredentials ≠ none
    · exact Or.inr (Or.inl ⟨hd, hany⟩)
    · simp only [not_or, not_not] at hany
      exact Or.inr (Or.inr ⟨hd, hany⟩)
  · exact Or.inl hd

/-- An Authorizer returned by `getDockerAuthorizer` carries the three slots as passed. -/
theorem getDockerAuthorizer_slots (c : Collab) (w : World) (projectTmpDir : String)
    (credentials pullCredentials pushCredentials : Option DockerCredentials)
    (a : DockerAuthorizer)
    (h : (getDockerAuthorizer c w projectTmpDir credentials pullCredentials
            pushCredentials).2 = .ok a) :
    a.Credentials = credentials ∧ a.PullCredentials = pullCredentials ∧
    a.PushCredentials = pushCredentials := by
  rcases getDockerAuthorizer_cases w credentials pullCredentials pushCredentials with
    hd | ⟨hd, hany⟩ | ⟨hd, h1, h2, h3⟩
  · rw [getDockerAuthorizer_of_config c w projectTmpDir _ _ _ hd] at h
    split at h
    · cases h
    · obtain rfl := Except.ok.inj h
      exact ⟨rfl, rfl, rfl⟩
  · rw [getDockerAuthorizer_of_scratch c w projectTmpDir _ _ _ hd hany] at h
    split at h
    · cases h
    · split at h
      · cases h
      · obtain rfl := Except.ok.inj h
        exact ⟨rfl, rfl, rfl⟩
  · subst h1 h2 h3
    rw [getDockerAuthorizer_of_home c w projectTmpDir hd] at h
    split at h
    · cases h
    · obtain rfl := Except.ok.inj h
      exact ⟨rfl, rfl, rfl⟩

/-! ## Entry points: what a returned Authorizer was built from -/

theorem GetBuildStages_ok (c : Collab) (w : World) (tmp u p : String) (a : DockerAuthorizer)
    (h : (GetBuildStagesDockerAuthorizer c w tmp u p).2 = .ok a) :
    ∃ pl, getPullCredentials w.env c.IsGCR u p = .ok pl ∧
      (getDockerAuthorizer c w tmp none pl none).2 = .ok a := by
  rcases hres : getPullCredentials w.env c.IsGCR u p with err | pl
  · simp [GetBuildStagesDockerAuthorizer, hres] at h
  · simp only [GetBuildStagesDockerAuthorizer, hres] at h
    exact ⟨pl, rfl, h⟩

theorem GetImagePublish_ok (c : Collab) (w : World) (tmp u p repo : String)
    (a : DockerAuthorizer)
    (h : (GetImagePublishDockerAuthorizer c w tmp u p repo).2 = .ok a) :
    ∃ ps, getPushCredentials w.env c.IsGCR u p repo = .ok ps ∧
      (getDockerAuthorizer c w tmp none none ps).2 = .ok a := by
  rcases hres : getPushCredentials w.env c.IsGCR u p repo with err | ps
  · simp [GetImagePublishDockerAuthorizer, hres] at h
  · simp only [GetImagePublishDockerAuthorizer, hres] at h
    exact ⟨ps, rfl, h⟩

theorem GetBuildAndPublish_ok (c : Collab) (w : World) (tmp u p u2 p2 repo : String)
    (a : DockerAuthorizer)
    (h : (GetBuildAndPublishDockerAuthorizer c w tmp u p u2 p2 repo).2 = .ok a) :
    ∃ pl ps, getPullCredentials w.env c.IsGCR u p = .ok pl ∧
      getPushCredentials w.env c.IsGCR u2 p2 repo = .ok ps ∧
      (getDockerAuthorizer c w tmp none pl ps).2 = .ok a := by
  rcases hres : getPullCredentials w.env c.IsGCR u p with err | pl
  · simp [GetBuildAndPublishDockerAuthorizer, hres] at h
  · rcases hres2 : getPushCredentials w.env c.IsGCR u2 p2 repo with err | ps
    · simp [GetBuildAndPublishDockerAuthorizer, hres, hres2] at h
    · simp only [GetBuildAndPublishDockerAuthorizer, hres, hres2] at h
      exact ⟨pl, ps, rfl, rfl, h⟩

theorem GetPurge_ok (c : Collab) (w : World) (tmp u p : String) (a : DockerAuthorizer)
    (h : (GetPurgeDockerAuthorizer c w tmp u p).2 = .ok a) :
    ∃ cr, getPurgeCredentials w.env c.IsGCR u p = .ok cr ∧
      (getDockerAuthorizer c w tmp cr none none).2 = .ok a := by
  rcases hres : getPurgeCredentials w.env c.IsGCR u p with err | cr
  · simp [GetPurgeDockerAuthorizer, hres] at h
  · simp only [GetPurgeDockerAuthorizer, hres] at h
    exact ⟨cr, rfl, h⟩

theorem GetSync_ok (c : Collab) (w : World) (tmp u p repo : String) (a : DockerAuthorizer)
    (h : (GetSyncDockerAuthorizer c w tmp u p repo).2 = .ok a) :
    ∃ cr, getSyncCredentials w.env c.IsGCR u p repo = .ok cr ∧
      (getDockerAuthorizer c w tmp cr none none).2 = .ok a := by
  rcases hres : getSyncCredentials w.env c.IsGCR u p repo with err | cr
  · simp [GetSyncDockerAuthorizer, hres] at h
  · simp only [GetSyncDockerAuthorizer, hres] at h
    exact ⟨cr, rfl, h⟩

theorem GetCleanup_ok (c : Collab) (w : World) (tmp u p repo : String) (a : DockerAuthorizer)
    (h : (GetCleanupDockerAuthorizer c w tmp u p repo).2 = .ok a) :
    ∃ cr, getCleanupCredentials w.env c.IsGCR u p repo = .ok cr ∧
      (getDockerAuthorizer c w tmp cr none none).2 = .ok a := by
  rcases hres : getCleanupCredentials w.env c.IsGCR u p repo with err | cr
  · simp [GetCleanupDockerAuthorizer, hres] at h
  · simp only [GetCleanupDockerAuthorizer, hres] at h
    exact ⟨cr, rfl, h⟩

theorem GetDeploy_ok (c : Collab) (w : World) (tmp u p repo : String) (a : DockerAuthorizer)
    (h : (GetDeployDockerAuthorizer c w tmp u p repo).2 = .ok a) :
    ∃ cr, getDeployCredentials w.env c.IsGCR u p repo = .ok cr ∧
      (getDockerAuthorizer c w tmp cr none none).2 = .ok a := by
  rcases hres : getDeployCredentials w.env c.IsGCR u p repo with err | cr
  · simp [GetDeployDockerAuthorizer, hres] at h
  · simp only [GetDeployDockerAuthorizer, hres] at h
    exact ⟨cr, rfl, h⟩

/-- An Authorizer with only its generic slot possibly populated has at most one populated
slot; likewise for the pull slot and for the push slot. -/
theorem populatedSlots_le_one (a : DockerAuthorizer)
    (h : (a.PullCredentials = none ∧ a.PushCredentials = none) ∨
         (a.Credentials = none ∧ a.PushCredentials = none) ∨
         (a.Credentials = none ∧ a.PullCredentials = none)) :
    populatedSlots a ≤ 1 := by
  unfold populatedSlots
  rcases h with ⟨h1, h2⟩ | ⟨h1, h2⟩ | ⟨h1, h2⟩ <;> rw [h1, h2] <;> simp <;> split <;> omega

/-! ## Slots: theorems -/

/-- C12, as stated, fails: `GetBuildAndPublishDockerAuthorizer` with explicit pull options
`u`/`p` and explicit push options `u2`/`p2` returns an Authorizer with both
`PullCredentials` and `PushCredentials` populated. -/
theorem C12_counterexample :
    (GetBuildAndPublishDockerAuthorizer gcrCollab (freshWorld []) "/tmp/werf"
        "u" "p" "u2" "p2" "registry.example.com/app").2
      = .ok { HostDockerConfigDir := "/tmp/werf/docker", ExternalDockerConfig := false,
              Credentials := none,
              PullCredentials := some { Username := "u", Password := "p" },
              PushCredentials := some { Username := "u2", Password := "p2" } } ∧
    populatedSlots
        { HostDockerConfigDir := "/tmp/werf/docker", ExternalDockerConfig := false,
          Credentials := none,
          PullCredentials := some { Username := "u", Password := "p" },
          PushCredentials := some { Username := "u2", Password := "p2" } } = 2 ∧
    ¬ populatedSlots
        { HostDockerConfigDir := "/tmp/werf/docker", ExternalDockerConfig := false,
          Credentials := none,
          PullCredentials := some { Username := "u", Password := "p" },
          PushCredentials := some { Username := "u2", Password := "p2" } } ≤ 1 := by
  refine ⟨by decide, by decide, by decide⟩

/-- C12, amended. Slot exclusivity: every Authorizer returned by
`GetBuildStagesDockerAuthorizer`, `GetImagePublishDockerAuthorizer`,
`GetPurgeDockerAuthorizer`, `GetSyncDockerAuthorizer`, `GetCleanupDockerAuthorizer` or
`GetDeployDockerAuthorizer` has at most one of the three slots populated; one returned by
`GetBuildAndPublishDockerAuthorizer` has `Credentials` absent, so at most the two slots
`PullCredentials` and `PushCredentials` populated. -/
theorem C12_slot_exclusivity (c : Collab) (w : World)
    (tmp u p u2 p2 repo : String) (a : DockerAuthorizer) :
    ((GetBuildStagesDockerAuthorizer c w tmp u p).2 = .ok a → populatedSlots a ≤ 1) ∧
    ((GetImagePublishDockerAuthorizer c w tmp u p repo).2 = .ok a → populatedSlots a ≤ 1) ∧
    ((GetPurgeDockerAuthorizer c w tmp u p).2 = .ok a → populatedSlots a ≤ 1) ∧
    ((GetSyncDockerAuthorizer c w tmp u p repo).2 = .ok a → populatedSlots a ≤ 1) ∧
    ((GetCleanupDockerAuthorizer c w tmp u p repo).2 = .ok a → populatedSlots a ≤ 1) ∧
    ((GetDeployDockerAuthorizer c w tmp u p repo).2 = .ok a → populatedSlots a ≤ 1) ∧
    ((GetBuildAndPublishDockerAuthorizer c w tmp u p u2 p2 repo).2 = .ok a →
      a.Credentials = none ∧ populatedSlots a ≤ 2) := by
  refine ⟨fun h => ?_, fun h => ?_, fun h => ?_, fun h => ?_, fun h => ?_, fun h => ?_,
    fun h => ?_⟩
  · obtain ⟨pl, -, hb⟩ := GetBuildStages_ok c w tmp u p a h
    obtain ⟨h1, -, h3⟩ := getDockerAuthorizer_slots c w tmp _ _ _ a hb
    exact populatedSlots_le_one a (Or.inr (Or.inl ⟨h1, h3⟩))
  · obtain ⟨ps, -, hb⟩ := GetImagePublish_ok c w tmp u p repo a h
    obtain ⟨h1, h2, -⟩ := getDockerAuthorizer_slots c w tmp _ _ _ a hb
    exact populatedSlots_le_one a (Or.inr (Or.inr ⟨h1, h2⟩))
  · obtain ⟨cr, -, hb⟩ := GetPurge_ok c w tmp u p a h
    obtain ⟨-, h2, h3⟩ := getDockerAuthorizer_slots c w tmp _ _ _ a hb
    exact populatedSlots_le_one a (Or.inl ⟨h2, h3⟩)
  · obtain ⟨cr, -, hb⟩ := GetSync_ok c w tmp u p repo a h
    obtain ⟨-, h2, h3⟩ := getDockerAuthorizer_slots c w tmp _ _ _ a hb
    exact populatedSlots_le_one a (Or.inl ⟨h2, h3⟩)
  · obtain ⟨cr, -, hb⟩ := GetCleanup_ok c w tmp u p repo a h
    obtain ⟨-, h2, h3⟩ := getDockerAuthorizer_slots c w tmp _ _ _ a hb
    exact populatedSlots_le_one a (Or.inl ⟨h2, h3⟩)
  · obtain ⟨cr, -, hb⟩ := GetDeploy_ok c w tmp u p repo a h
    obtain ⟨-, h2, h3⟩ := getDockerAuthorizer_slots c w tmp _ _ _ a hb
    exact populatedSlots_le_one a (Or.inl ⟨h2, h3⟩)
  · obtain ⟨pl, ps, -, -, hb⟩ := GetBuildAndPublish_ok c w tmp u p u2 p2 repo a h
    obtain ⟨h1, -, -⟩ := getDockerAuthorizer_slots c w tmp _ _ _ a hb
    refine ⟨h1, ?_⟩
    unfold populatedSlots
    rw [h1]
    simp only [Option.isSome_none, Bool.false_eq_true, if_false]
    split <;> split <;> omega

/-- C12, amended, at a concrete input: `GetImagePublishDockerAuthorizer` with explicit push
options returns an Authorizer, and it has one populated slot. -/
theorem C12_slot_exclusivity_witness :
    (GetImagePublishDockerAuthorizer gcrCollab (freshWorld []) "/tmp/werf" "u2" "p2"
        "registry.example.com/app").2
      = .ok { HostDockerConfigDir := "/tmp/werf/docker", ExternalDockerConfig := false,
              Credentials := none, PullCredentials := none,
              PushCredentials := some { Username := "u2", Password := "p2" } } ∧
    populatedSlots
        { HostDockerConfigDir := "/tmp/werf/docker", ExternalDockerConfig := false,
          Credentials := none, PullCredentials := none,
          PushCredentials := some { Username := "u2", Password := "p2" } } ≤ 1 :=
  ⟨by decide,
    (C12_slot_exclusivity gcrCollab (freshWorld []) "/tmp/werf" "u2" "p2" "" ""
      "registry.example.com/app"
      { HostDockerConfigDir := "/tmp/werf/docker", ExternalDockerConfig := false,
        Credentials := none, PullCredentials := none,
        PushCredentials := some { Username := "u2", Password := "p2" } }).2.1 (by decide)⟩

/-! ## No half-filled credential set -/

theorem getSpecifiedCredentials_filled (u p : String) (creds : DockerCredentials)
    (h : getSpecifiedCredentials u p = some creds) : Filled creds := by
  unfold getSpecifiedCredentials at h
  split at h
  · rename_i hup
    obtain rfl := Option.some.inj h
    exact hup
  · cases h

theorem getDefaultAutologinCredentials_filled (env : Env) (creds : DockerCredentials)
    (h : getDefaultAutologinCredentials env = .ok (some creds)) : Filled creds := by
  unfold getDefaultAutologinCredentials at h
  split at h
  · simp only at h
    split at h
    · rename_i hci
      obtain rfl := Option.some.inj (Except.ok.inj h)
      exact ⟨(by decide : ("gitlab-ci-token" : String) ≠ ""), hci.2⟩
    · cases h
  · cases h

theorem getDefaultCredentials_filled (env : Env) (IsGCR : Classifier) (u p repo : String)
    (creds : DockerCredentials)
    (h : getDefaultCredentials env IsGCR u p repo = .ok (some creds)) : Filled creds := by
  unfold getDefaultCredentials at h
  split at h
  · rename_i cr hcr
    obtain rfl := Option.some.inj (Except.ok.inj h)
    exact getSpecifiedCredentials_filled u p _ hcr
  · split at h
    · cases h
    · cases h
    · exact getDefaultAutologinCredentials_filled env creds h

theorem getPullCredentials_filled (env : Env) (IsGCR : Classifier) (u p : String)
    (creds : DockerCredentials)
    (h : getPullCredentials env IsGCR u p = .ok (some creds)) : Filled creds := by
  unfold getPullCredentials at h
  split at h
  · rename_i cr hcr
    obtain rfl := Option.some.inj (Except.ok.inj h)
    exact getSpecifiedCredentials_filled u p _ hcr
  · exact getDefaultAutologinCredentials_filled env creds h

theorem getPurgeCredentials_filled (env : Env) (IsGCR : Classifier) (u p : String)
    (creds : DockerCredentials)
    (h : getPurgeCredentials env IsGCR u p = .ok (some creds)) : Filled creds :=
  getSpecifiedCredentials_filled u p creds (Except.ok.inj h)

theorem getCleanupCredentials_filled (env : Env) (IsGCR : Classifier) (u p repo : String)
    (creds : DockerCredentials)
    (h : getCleanupCredentials env IsGCR u p repo = .ok (some creds)) : Filled creds := by
  unfold getCleanupCredentials at h
  split at h
  · rename_i cr hcr
    obtain rfl := Option.some.inj (Except.ok.inj h)
    exact getSpecifiedCredentials_filled u p _ hcr
  · simp only at h
    split at h
    · rename_i hpw
      obtain rfl := Option.some.inj (Except.ok.inj h)
      exact ⟨(by decide : ("werf-cleanup" : String) ≠ ""), hpw⟩
    · split at h
      · cases h
      · cases h
      · exact getDefaultAutologinCredentials_filled env creds h

/-- An Authorizer whose slots are, one by one, absent or filled has all its populated
slots filled. -/
theorem slotsFilled_of_slots (a : DockerAuthorizer) (cr pl ps : Option DockerCredentials)
    (hs : a.Credentials = cr ∧ a.PullCredentials = pl ∧ a.PushCredentials = ps)
    (hcr : ∀ x, cr = some x → Filled x) (hpl : ∀ x, pl = some x → Filled x)
    (hps : ∀ x, ps = some x → Filled x) : SlotsFilled a := by
  obtain ⟨h1, h2, h3⟩ := hs
  intro creds hc
  rcases hc with h | h | h
  · exact hcr creds (h1 ▸ h)
  · exact hpl creds (h2 ▸ h)
  · exact hps creds (h3 ▸ h)

/-- C13. No half-filled credential set: whenever one of the six resolvers returns a
credential set, its `Username` and its `Password` are both non-empty; consequently every
populated slot of an Authorizer returned by any of the seven entry points holds a non-empty
`Username` and a non-empty `Password`. This holds for every option pair, repo, classifier
and environment. -/
theorem C13_no_half_filled_credentials (c : Collab) (w : World) (env : Env)
    (IsGCR : Classifier) (tmp u p u2 p2 repo : String) (creds : DockerCredentials)
    (a : DockerAuthorizer) :
    ((getPullCredentials env IsGCR u p = .ok (some creds) → Filled creds) ∧
     (getPushCredentials env IsGCR u p repo = .ok (some creds) → Filled creds) ∧
     (getSyncCredentials env IsGCR u p repo = .ok (some creds) → Filled creds) ∧
     (getDeployCredentials env IsGCR u p repo = .ok (some creds) → Filled creds) ∧
     (getPurgeCredentials env IsGCR u p = .ok (some creds) → Filled creds) ∧
     (getCleanupCredentials env IsGCR u p repo = .ok (some creds) → Filled creds)) ∧
    ((GetBuildStagesDockerAuthorizer c w tmp u p).2 = .ok a → SlotsFilled a) ∧
    ((GetImagePublishDockerAuthorizer c w tmp u p repo).2 = .ok a → SlotsFilled a) ∧
    ((GetBuildAndPublishDockerAuthorizer c w tmp u p u2 p2 repo).2 = .ok a → SlotsFilled a) ∧
    ((GetPurgeDockerAuthorizer c w tmp u p).2 = .ok a → SlotsFilled a) ∧
    ((GetSyncDockerAuthorizer c w tmp u p repo).2 = .ok a → SlotsFilled a) ∧
    ((GetCleanupDockerAuthorizer c w tmp u p repo).2 = .ok a → SlotsFilled a) ∧
    ((GetDeployDockerAuthorizer c w tmp u p repo).2 = .ok a → SlotsFilled a) := by
  have hnone : ∀ x : DockerCredentials, (none : Option DockerCredentials) = some x → Filled x :=
    fun x hx => by cases hx
  refine ⟨⟨getPullCredentials_filled env IsGCR u p creds,
      getDefaultCredentials_filled env IsGCR u p repo creds,
      getDefaultCredentials_filled env IsGCR u p repo creds,
      getDefaultCredentials_filled env IsGCR u p repo creds,
      getPurgeCredentials_filled env IsGCR u p creds,
      getCleanupCredentials_filled env IsGCR u p repo creds⟩,
    fun h => ?_, fun h => ?_, fun h => ?_, fun h => ?_, fun h => ?_, fun h => ?_, fun h => ?_⟩
  · obtain ⟨pl, hr, hb⟩ := GetBuildStages_ok c w tmp u p a h
    exact slotsFilled_of_slots a _ _ _ (getDockerAuthorizer_slots c w tmp _ _ _ a hb) hnone
      (fun x hx => getPullCredentials_filled _ _ u p x (hx ▸ hr)) hnone
  · obtain ⟨ps, hr, hb⟩ := GetImagePublish_ok c w tmp u p repo a h
    exact slotsFilled_of_slots a _ _ _ (getDockerAuthorizer_slots c w tmp _ _ _ a hb) hnone
      hnone (fun x hx => getDefaultCredentials_filled _ _ u p repo x (hx ▸ hr))
  · obtain ⟨pl, ps, hr, hr2, hb⟩ := GetBuildAndPublish_ok c w tmp u p u2 p2 repo a h
    exact slotsFilled_of_slots a _ _ _ (getDockerAuthorizer_slots c w tmp _ _ _ a hb) hnone
      (fun x hx => getPullCredentials_filled _ _ u p x (hx ▸ hr))
      (fun x hx => getDefaultCredentials_filled _ _ u2 p2 repo x (hx ▸ hr2))
  · obtain ⟨cr, hr, hb⟩ := GetPurge_ok c w tmp u p a h
    exact slotsFilled_of_slots a _ _ _ (getDockerAuthorizer_slots c w tmp _ _ _ a hb)
      (fun x hx => getPurgeCredentials_filled _ _ u p x (hx ▸ hr)) hnone hnone
  · obtain ⟨cr, hr, hb⟩ := GetSync_ok c w tmp u p repo a h
    exact slotsFilled_of_slots a _ _ _ (getDockerAuthorizer_slots c w tmp _ _ _ a hb)
      (fun x hx => getDefaultCredentials_filled _ _ u p repo x (hx ▸ hr)) hnone hnone
  · obtain ⟨cr, hr, hb⟩ := GetCleanup_ok c w tmp u p repo a h
    exact slotsFilled_of_slots a _ _ _ (getDockerAuthorizer_slots c w tmp _ _ _ a hb)
      (fun x hx => getCleanupCredentials_filled _ _ u p repo x (hx ▸ hr)) hnone hnone
  · obtain ⟨cr, hr, hb⟩ := GetDeploy_ok c w tmp u p repo a h
    exact slotsFilled_of_slots a _ _ _ (getDockerAuthorizer_slots c w tmp _ _ _ a hb)
      (fun x hx => getDefaultCredentials_filled _ _ u p repo x (hx ▸ hr)) hnone hnone

/-- C13 at a concrete input: cleanup with a half-supplied option pair and the cleanup
password `pw` returns the pair `werf-cleanup`/`pw`, both fields non-empty. -/
theorem C13_no_half_filled_credentials_witness :
    getCleanupCredentials (envOf [("WERF_CLEANUP_REGISTRY_PASSWORD", "pw")])
        (fun _ => .ok false) "alice" "" "registry.example.com/app"
      = .ok (some { Username := "werf-cleanup", Password := "pw" }) ∧
    Filled { Username := "werf-cleanup", Password := "pw" } :=
  ⟨by decide,
    (C13_no_half_filled_credentials quietCollab (freshWorld [])
      (envOf [("WERF_CLEANUP_REGISTRY_PASSWORD", "pw")]) (fun _ => .ok false)
      "/tmp/werf" "alice" "" "" "" "registry.example.com/app"
      { Username := "werf-cleanup", Password := "pw" }
      { HostDockerConfigDir := "", ExternalDockerConfig := false, Credentials := none,
        PullCredentials := none, PushCredentials := none }).1.2.2.2.2.2 (by decide)⟩

/-! ## Login sequencing -/

/-- The private `login` on a non-external Authorizer with credentials present. -/
theorem login_of_creds (c : Collab) (w : World) (a : DockerAuthorizer)
    (creds : DockerCredentials) (repo : String) (hext : a.ExternalDockerConfig = false) :
    DockerAuthorizer.login c w a (some creds) repo =
      match c.Login w creds.Username creds.Password repo with
      | some err => ⟨a, w.emit (Event.Login creds.Username creds.Password repo), some err⟩
      | none =>
        match c.Init (w.emit (Event.Login creds.Username creds.Password repo))
            a.HostDockerConfigDir with
        | some err =>
          ⟨a, (w.emit (Event.Login creds.Username creds.Password repo)).emit
            (Event.Init a.HostDockerConfigDir), some err⟩
        | none =>
          ⟨a, (w.emit (Event.Login creds.Username creds.Password repo)).emit
            (Event.Init a.HostDockerConfigDir), none⟩ := by
  unfold DockerAuthorizer.login
  rw [hext]

/-- A public login method, written as the private `login` followed by the log line on a
nil error, follows the login sequence. -/
theorem loginSequenced_of_wrapper (c : Collab) (w : World) (a : DockerAuthorizer)
    (creds : DockerCredentials) (repo line : String)
    (hext : a.ExternalDockerConfig = false) (r : MethodResult)
    (hr : r =
      match (DockerAuthorizer.login c w a (some creds) repo).err with
      | some err =>
        ⟨(DockerAuthorizer.login c w a (some creds) repo).recv,
          (DockerAuthorizer.login c w a (some creds) repo).world, some err⟩
      | none =>
        ⟨(DockerAuthorizer.login c w a (some creds) repo).recv,
          (DockerAuthorizer.login c w a (some creds) repo).world.emit (Event.LogInfoF line),
          none⟩) :
    LoginSequenced c w a creds repo line r := by
  subst hr
  rw [login_of_creds c w a creds repo hext]
  unfold LoginSequenced
  rcases hlogin : c.Login w creds.Username creds.Password repo with _ | e1
  · rcases hinit : c.Init (w.emit (Event.Login creds.Username creds.Password repo))
        a.HostDockerConfigDir with _ | e2
    · simp [World.emit]
    · simp [World.emit]
  · simp [World.emit]

/-- C14. Login sequencing and failure: on a non-external Authorizer whose slot holds
credentials `u`/`p`, each of `Login`, `LoginForPull`, `LoginForPush` on repo `r` first calls
`docker.Login(u, p, r)`; if that fails with `e` the method returns `e` itself, with no
`docker.Init` call and no log line; if it succeeds the method calls
`docker.Init(HostDockerConfigDir)` once, and only if that succeeds too does it emit its one
log line (naming `r`, and the kind for pull and push) and return nil. -/
theorem C14_login_sequencing (c : Collab) (w : World) (a : DockerAuthorizer)
    (creds : DockerCredentials) (repo : String) (hext : a.ExternalDockerConfig = false) :
    (a.Credentials = some creds →
      LoginSequenced c w a creds repo ("Login into docker repo \x27" ++ repo ++ "\x27\n")
        (DockerAuthorizer.Login c w a repo)) ∧
    (a.PullCredentials = some creds →
      LoginSequenced c w a creds repo
        ("Login into docker repo \x27" ++ repo ++ "\x27 for pull\n")
        (DockerAuthorizer.LoginForPull c w a repo)) ∧
    (a.PushCredentials = some creds →
      LoginSequenced c w a creds repo
        ("Login into docker repo \x27" ++ repo ++ "\x27 for push\n")
        (DockerAuthorizer.LoginForPush c w a repo)) := by
  refine ⟨fun h => ?_, fun h => ?_, fun h => ?_⟩
  · apply loginSequenced_of_wrapper c w a creds repo _ hext
    simp only [DockerAuthorizer.Login, h]
  · apply loginSequenced_of_wrapper c w a creds repo _ hext
    simp only [DockerAuthorizer.LoginForPull, h]
  · apply loginSequenced_of_wrapper c w a creds repo _ hext
    simp only [DockerAuthorizer.LoginForPush, h]

/-- C14 at two concrete inputs, on a scratch-directory Authorizer with pull credentials
`u`/`p`: when `docker.Login` is refused, `LoginForPull` returns that very error after the
one `docker.Login` call; when every collaborator succeeds, it returns nil after
`docker.Login`, `docker.Init` and the log line, in this order. -/
theorem C14_login_sequencing_witness :
    ((DockerAuthorizer.LoginForPull refusingCollab (freshWorld [])
        { HostDockerConfigDir := "/tmp/werf/docker", ExternalDockerConfig := false,
          Credentials := none, PullCredentials := some { Username := "u", Password := "p" },
          PushCredentials := none } "r.example.com/app").err
      = some "unauthorized: authentication required" ∧
    (DockerAuthorizer.LoginForPull refusingCollab (freshWorld [])
        { HostDockerConfigDir := "/tmp/werf/docker", ExternalDockerConfig := false,
          Credentials := none, PullCredentials := some { Username := "u", Password := "p" },
          PushCredentials := none } "r.example.com/app").world.trace
      = [Event.Login "u" "p" "r.example.com/app"]) ∧
    ((DockerAuthorizer.LoginForPull gcrCollab (freshWorld [])
        { HostDockerConfigDir := "/tmp/werf/docker", ExternalDockerConfig := false,
          Credentials := none, PullCredentials := some { Username := "u", Password := "p" },
          PushCredentials := none } "r.example.com/app").err = none ∧
    (DockerAuthorizer.LoginForPull gcrCollab (freshWorld [])
        { HostDockerConfigDir := "/tmp/werf/docker", ExternalDockerConfig := false,
          Credentials := none, PullCredentials := some { Username := "u", Password := "p" },
          PushCredentials := none } "r.example.com/app").world.trace
      = [Event.Login "u" "p" "r.example.com/app", Event.Init "/tmp/werf/docker",
         Event.LogInfoF "Login into docker repo \x27r.example.com/app\x27 for pull\n"]) :=
  ⟨((C14_login_sequencing refusingCollab (freshWorld [])
      { HostDockerConfigDir := "/tmp/werf/docker", ExternalDockerConfig := false,
        Credentials := none, PullCredentials := some { Username := "u", Password := "p" },
        PushCredentials := none } { Username := "u", Password := "p" } "r.example.com/app"
      rfl).2.1 rfl).2.2.1 "unauthorized: authentication required" rfl,
    (((C14_login_sequencing gcrCollab (freshWorld [])
      { HostDockerConfigDir := "/tmp/werf/docker", ExternalDockerConfig := false,
        Credentials := none, PullCredentials := some { Username := "u", Password := "p" },
        PushCredentials := none } { Username := "u", Password := "p" } "r.example.com/app"
      rfl).2.1 rfl).2.2.2 rfl).2 rfl⟩

/-! ## Scratch directory, initialization and publication -/

/-- C15. Scratch directory branch: with `WERF_DOCKER_CONFIG` empty or unset and at least one
of the generic, pull, push credentials present, `getDockerAuthorizer` attempts to create
exactly the directory `path.Join(projectTmpDir, "docker")`. If the creation fails it
returns an error and no Authorizer, without any `docker.Init` call and without writing
`DOCKER_CONFIG`. If the creation and the initialization succeed it returns an Authorizer
with `ExternalDockerConfig = false`, `HostDockerConfigDir = path.Join(projectTmpDir,
"docker")` and the three slots as passed. -/
theorem C15_scratch_directory_branch (c : Collab) (w : World) (projectTmpDir : String)
    (credentials pullCredentials pushCredentials : Option DockerCredentials)
    (hd : w.env "WERF_DOCKER_CONFIG" = "")
    (hany : credentials ≠ none ∨ pullCredentials ≠ none ∨ pushCredentials ≠ none) :
    mkdirCalls
        (getDockerAuthorizer c w projectTmpDir credentials pullCredentials pushCredentials).1.trace
      = mkdirCalls w.trace ++ [Event.Mkdir (pathJoin [projectTmpDir, "docker"]) ModePerm] ∧
    (∀ err, c.Mkdir w (pathJoin [projectTmpDir, "docker"]) = some err →
      (getDockerAuthorizer c w projectTmpDir credentials pullCredentials pushCredentials).2
        = .error ("error creating tmp dir " ++ pathJoin [projectTmpDir, "docker"] ++
            " for docker config: " ++ err) ∧
      (getDockerAuthorizer c w projectTmpDir credentials pullCredentials pushCredentials).1.trace
        = w.trace ++ [Event.Mkdir (pathJoin [projectTmpDir, "docker"]) ModePerm] ∧
      (getDockerAuthorizer c w projectTmpDir credentials pullCredentials pushCredentials).1.env
        = w.env) ∧
    (c.Mkdir w (pathJoin [projectTmpDir, "docker"]) = none →
      c.Init
          ((w.emit (Event.Mkdir (pathJoin [projectTmpDir, "docker"]) ModePerm)).emit
            (Event.LogInfoF ("Using tmp docker config at " ++
              pathJoin [projectTmpDir, "docker"] ++ "\n")))
          (pathJoin [projectTmpDir, "docker"]) = none →
      (getDockerAuthorizer c w projectTmpDir credentials pullCredentials pushCredentials).2
        = .ok { HostDockerConfigDir := pathJoin [projectTmpDir, "docker"],
                ExternalDockerConfig := false, Credentials := credentials,
                PullCredentials := pullCredentials, PushCredentials := pushCredentials }) ∧
    (∀ a, (getDockerAuthorizer c w projectTmpDir credentials pullCredentials pushCredentials).2
          = .ok a →
      a = { HostDockerConfigDir := pathJoin [projectTmpDir, "docker"],
            ExternalDockerConfig := false, Credentials := credentials,
            PullCredentials := pullCredentials, PushCredentials := pushCredentials }) := by
  rw [getDockerAuthorizer_of_scratch c w projectTmpDir _ _ _ hd hany]
  rcases hmk : c.Mkdir w (pathJoin [projectTmpDir, "docker"]) with _ | e1
  · rcases hinit : c.Init
        ((w.emit (Event.Mkdir (pathJoin [projectTmpDir, "docker"]) ModePerm)).emit
          (Event.LogInfoF ("Using tmp docker config at " ++
            pathJoin [projectTmpDir, "docker"] ++ "\n")))
        (pathJoin [projectTmpDir, "docker"]) with _ | e2
    · refine ⟨?_, fun err h => (by cases h), fun _ _ => rfl, fun a ha => ?_⟩
      · simp [World.Setenv, World.emit, mkdirCalls]
      · exact (Except.ok.inj ha).symm
    · refine ⟨?_, fun err h => (by cases h), fun _ h => (by cases h), fun a ha => (by cases ha)⟩
      simp [World.emit, mkdirCalls]
  · refine ⟨?_, fun err h => ?_, fun h => (by cases h), fun a ha => (by cases ha)⟩
    · simp [World.emit, mkdirCalls]
    · obtain rfl := Option.some.inj h
      exact ⟨rfl, rfl, rfl⟩

/-- C15 at two concrete inputs, with pull credentials `u`/`p` and temporary root
`/tmp/werf`: when `os.Mkdir` fails, the result is the directory-creation error and the
trace is the one `os.Mkdir` call on `/tmp/werf/docker`; when every collaborator succeeds,
the result is the non-external Authorizer on `/tmp/werf/docker`. -/
theorem C15_scratch_directory_branch_witness :
    ((getDockerAuthorizer quietCollab (freshWorld []) "/tmp/werf" none
        (some { Username := "u", Password := "p" }) none).2
      = .error "error creating tmp dir /tmp/werf/docker for docker config: mkdir: permission denied" ∧
    (getDockerAuthorizer quietCollab (freshWorld []) "/tmp/werf" none
        (some { Username := "u", Password := "p" }) none).1.trace
      = [Event.Mkdir "/tmp/werf/docker" 511]) ∧
    (getDockerAuthorizer gcrCollab (freshWorld []) "/tmp/werf" none
        (some { Username := "u", Password := "p" }) none).2
      = .ok { HostDockerConfigDir := "/tmp/werf/docker", ExternalDockerConfig := false,
              Credentials := none, PullCredentials := some { Username := "u", Password := "p" },
              PushCredentials := none } :=
  ⟨⟨((C15_scratch_directory_branch quietCollab (freshWorld []) "/tmp/werf" none
        (some { Username := "u", Password := "p" }) none (by decide) (by decide)).2.1
        "mkdir: permission denied" rfl).1,
     ((C15_scratch_directory_branch quietCollab (freshWorld []) "/tmp/werf" none
        (some { Username := "u", Password := "p" }) none (by decide) (by decide)).2.1
        "mkdir: permission denied" rfl).2.1⟩,
    (C15_scratch_directory_branch gcrCollab (freshWorld []) "/tmp/werf" none
        (some { Username := "u", Password := "p" }) none (by decide) (by decide)).2.2.1
        rfl rfl⟩

/-- C16. Config directory is initialized and published on every branch: whenever
`getDockerAuthorizer` returns an Authorizer `a`, the calls it added to the trace contain
exactly one `docker.Init`, with argument `a.HostDockerConfigDir`, and no `docker.Login`;
they end with the write of `DOCKER_CONFIG`; and the environment afterwards has
`DOCKER_CONFIG = a.HostDockerConfigDir`. This holds for every input and environment,
whichever branch selected the directory. -/
theorem C16_config_dir_initialized_and_published (c : Collab) (w : World)
    (projectTmpDir : String)
    (credentials pullCredentials pushCredentials : Option DockerCredentials)
    (a : DockerAuthorizer)
    (h : (getDockerAuthorizer c w projectTmpDir credentials pullCredentials
            pushCredentials).2 = .ok a) :
    (∃ added,
      (getDockerAuthorizer c w projectTmpDir credentials pullCredentials
          pushCredentials).1.trace = w.trace ++ added ∧
      dockerCalls added = [Event.Init a.HostDockerConfigDir] ∧
      added.getLast? = some (Event.Setenv "DOCKER_CONFIG" a.HostDockerConfigDir)) ∧
    (getDockerAuthorizer c w projectTmpDir credentials pullCredentials
        pushCredentials).1.env "DOCKER_CONFIG" = a.HostDockerConfigDir := by
  rcases getDockerAuthorizer_cases w credentials pullCredentials pushCredentials with
    hd | ⟨hd, hany⟩ | ⟨hd, h1, h2, h3⟩
  · rw [getDockerAuthorizer_of_config c w projectTmpDir _ _ _ hd] at h ⊢
    split at h
    · cases h
    · rename_i hinit
      obtain rfl := Except.ok.inj h
      refine ⟨⟨[Event.Init (w.env "WERF_DOCKER_CONFIG"),
        Event.Setenv "DOCKER_CONFIG" (w.env "WERF_DOCKER_CONFIG")], ?_, ?_, ?_⟩, ?_⟩
      · simp [World.Setenv, World.emit]
      · simp [dockerCalls]
      · simp
      · simp [World.Setenv]
  · rw [getDockerAuthorizer_of_scratch c w projectTmpDir _ _ _ hd hany] at h ⊢
    split at h
    · cases h
    · rename_i hmk
      split at h
      · cases h
      · rename_i hinit
        obtain rfl := Except.ok.inj h
        refine ⟨⟨[Event.Mkdir (pathJoin [projectTmpDir, "docker"]) ModePerm,
          Event.LogInfoF ("Using tmp docker config at " ++
            pathJoin [projectTmpDir, "docker"] ++ "\n"),
          Event.Init (pathJoin [projectTmpDir, "docker"]),
          Event.Setenv "DOCKER_CONFIG" (pathJoin [projectTmpDir, "docker"])], ?_, ?_, ?_⟩, ?_⟩
        · simp [World.Setenv, World.emit]
        · simp [dockerCalls]
        · simp
        · simp [World.Setenv]
  · subst h1 h2 h3
    rw [getDockerAuthorizer_of_home c w projectTmpDir hd] at h ⊢
    split at h
    · cases h
    · rename_i hinit
      obtain rfl := Except.ok.inj h
      refine ⟨⟨[Event.Init (GetHomeDockerConfigDir w.env),
        Event.Setenv "DOCKER_CONFIG" (GetHomeDockerConfigDir w.env)], ?_, ?_, ?_⟩, ?_⟩
      · simp [World.Setenv, World.emit]
      · simp [dockerCalls]
      · simp
      · simp [World.Setenv]

/-- C16 at three concrete inputs, one per branch: the home fallback, the scratch directory
and `WERF_DOCKER_CONFIG`; each time `DOCKER_CONFIG` ends up naming the directory of the
returned Authorizer. -/
theorem C16_config_dir_initialized_and_published_witness :
    (getDockerAuthorizer gcrCollab (freshWorld [("HOME", "/home/user")]) "/tmp/werf"
        none none none).1.env "DOCKER_CONFIG" = "/home/user/.docker" ∧
    (getDockerAuthorizer gcrCollab (freshWorld [("HOME", "/home/user")]) "/tmp/werf"
        none none (some { Username := "u", Password := "p" })).1.env "DOCKER_CONFIG"
      = "/tmp/werf/docker" ∧
    (getDockerAuthorizer gcrCollab (freshWorld [("WERF_DOCKER_CONFIG", "/etc/docker")])
        "/tmp/werf" none none (some { Username := "u", Password := "p" })).1.env "DOCKER_CONFIG"
      = "/etc/docker" ∧
    (getDockerAuthorizer gcrCollab (freshWorld [("HOME", "/home/user")]) "/tmp/werf"
        none none (some { Username := "u", Password := "p" })).1.trace
      = [Event.Mkdir "/tmp/werf/docker" 511,
         Event.LogInfoF "Using tmp docker config at /tmp/werf/docker\n",
         Event.Init "/tmp/werf/docker", Event.Setenv "DOCKER_CONFIG" "/tmp/werf/docker"] :=
  ⟨(C16_config_dir_initialized_and_published gcrCollab (freshWorld [("HOME", "/home/user")])
      "/tmp/werf" none none none
      { HostDockerConfigDir := "/home/user/.docker", ExternalDockerConfig := true,
        Credentials := none, PullCredentials := none, PushCredentials := none }
      (by decide)).2,
    (C16_config_dir_initialized_and_published gcrCollab (freshWorld [("HOME", "/home/user")])
      "/tmp/werf" none none (some { Username := "u", Password := "p" })
      { HostDockerConfigDir := "/tmp/werf/docker", ExternalDockerConfig := false,
        Credentials := none, PullCredentials := none,
        PushCredentials := some { Username := "u", Password := "p" } }
      (by decide)).2,
    (C16_config_dir_initialized_and_published gcrCollab
      (freshWorld [("WERF_DOCKER_CONFIG", "/etc/docker")])
      "/tmp/werf" none none (some { Username := "u", Password := "p" })
      { HostDockerConfigDir := "/etc/docker", ExternalDockerConfig := true,
        Credentials := none, PullCredentials := none,
        PushCredentials := some { Username := "u", Password := "p" } }
      (by decide)).2,
    by decide⟩

/-! ## Errors of the entry points -/

/-- The default chain fails only with the error of the classifier on a non-empty repo. -/
theorem getDefaultCredentials_error (env : Env) (IsGCR : Classifier) (u p repo : String)
    (err : GoError) (h : getDefaultCredentials env IsGCR u p repo = .error err) :
    repo ≠ "" ∧ IsGCR repo = .error err := by
  unfold getDefaultCredentials at h
  split at h
  · cases h
  · split at h
    · rename_i e he
      obtain rfl := Except.error.inj h
      unfold isGCR at he
      split at he
      · rename_i hrepo
        exact ⟨hrepo, he⟩
      · cases he
    · cases h
    · unfold getDefaultAutologinCredentials at h
      split at h
      · simp only at h
        split at h <;> cases h
      · cases h

/-- The cleanup chain fails only with the error of the classifier on a non-empty repo. -/
theorem getCleanupCredentials_error (env : Env) (IsGCR : Classifier) (u p repo : String)
    (err : GoError) (h : getCleanupCredentials env IsGCR u p repo = .error err) :
    repo ≠ "" ∧ IsGCR repo = .error err := by
  unfold getCleanupCredentials at h
  split at h
  · cases h
  · simp only at h
    split at h
    · cases h
    · split at h
      · rename_i e he
        obtain rfl := Except.error.inj h
        unfold isGCR at he
        split at he
        · rename_i hrepo
          exact ⟨hrepo, he⟩
        · cases he
      · cases h
      · unfold getDefaultAutologinCredentials at h
        split at h
        · simp only at h
          split at h <;> cases h
        · cases h

/-- Pull resolution never fails. -/
theorem getPullCredentials_ne_error (env : Env) (IsGCR : Classifier) (u p : String)
    (err : GoError) : getPullCredentials env IsGCR u p ≠ .error err := by
  intro h
  unfold getPullCredentials at h
  split at h
  · cases h
  · unfold getDefaultAutologinCredentials at h
    split at h
    · simp only at h
      split at h <;> cases h
    · cases h

/-- With explicit credentials absent and the classifier failing on a non-empty repo, the
default chain returns the error of the classifier. -/
theorem getDefaultCredentials_of_classifier_error (env : Env) (IsGCR : Classifier)
    (u p repo : String) (err : GoError) (habsent : u = "" ∨ p = "") (hrepo : repo ≠ "")
    (hcls : IsGCR repo = .error err) :
    getDefaultCredentials env IsGCR u p repo = .error err := by
  have hspec : getSpecifiedCredentials u p = none := by
    unfold getSpecifiedCredentials
    rcases habsent with h | h <;> simp [h]
  simp [getDefaultCredentials, isGCR, hspec, hrepo, hcls]

/-- C17. Provider classification failure aborts resolution with operation-kind context:
when explicit credentials are absent, the repo is non-empty and the classifier fails on it
with `e`, each of `GetImagePublishDockerAuthorizer`, `GetSyncDockerAuthorizer`,
`GetDeployDockerAuthorizer`, and `GetCleanupDockerAuthorizer` when
`WERF_CLEANUP_REGISTRY_PASSWORD` is empty, returns no Authorizer and the error `cannot get
docker credentials for <kind>: ` followed by `e`, and leaves the world as it was: no
directory created, no `docker.Init` call, no write of `DOCKER_CONFIG`. -/
theorem C17_classification_failure_aborts (c : Collab) (w : World)
    (projectTmpDir usernameOption passwordOption repo : String) (err : GoError)
    (habsent : usernameOption = "" ∨ passwordOption = "") (hrepo : repo ≠ "")
    (hcls : c.IsGCR repo = .error err) :
    GetImagePublishDockerAuthorizer c w projectTmpDir usernameOption passwordOption repo
      = (w, .error ("cannot get docker credentials for push: " ++ err)) ∧
    GetSyncDockerAuthorizer c w projectTmpDir usernameOption passwordOption repo
      = (w, .error ("cannot get docker credentials for sync: " ++ err)) ∧
    GetDeployDockerAuthorizer c w projectTmpDir usernameOption passwordOption repo
      = (w, .error ("cannot get docker credentials for deploy: " ++ err)) ∧
    (w.env "WERF_CLEANUP_REGISTRY_PASSWORD" = "" →
      GetCleanupDockerAuthorizer c w projectTmpDir usernameOption passwordOption repo
        = (w, .error ("cannot get docker credentials for cleanup: " ++ err))) := by
  have hspec : getSpecifiedCredentials usernameOption passwordOption = none := by
    unfold getSpecifiedCredentials
    rcases habsent with h | h <;> simp [h]
  have hdef := getDefaultCredentials_of_classifier_error w.env c.IsGCR usernameOption
    passwordOption repo err habsent hrepo hcls
  refine ⟨?_, ?_, ?_, fun hpw => ?_⟩
  · simp only [GetImagePublishDockerAuthorizer, getPushCredentials, hdef]
  · simp only [GetSyncDockerAuthorizer, getSyncCredentials, hdef]
  · simp only [GetDeployDockerAuthorizer, getDeployCredentials, hdef]
  · have hclean : getCleanupCredentials w.env c.IsGCR usernameOption passwordOption repo
        = .error err := by
      simp [getCleanupCredentials, isGCR, hspec, hpw, hrepo, hcls]
    simp only [GetCleanupDockerAuthorizer, hclean]

/-- C17 at a concrete input: the classifier fails with `invalid reference format` on the
repo `Bad//Repo`; the publish entry point returns the wrapped error and the trace stays
empty. -/
theorem C17_classification_failure_aborts_witness :
    (GetImagePublishDockerAuthorizer brokenClassifierCollab (freshWorld []) "/tmp/werf"
        "" "" "Bad//Repo").2
      = .error "cannot get docker credentials for push: invalid reference format" ∧
    (GetImagePublishDockerAuthorizer brokenClassifierCollab (freshWorld []) "/tmp/werf"
        "" "" "Bad//Repo").1.trace = [] :=
  ⟨congrArg Prod.snd (C17_classification_failure_aborts brokenClassifierCollab (freshWorld [])
      "/tmp/werf" "" "" "Bad//Repo" "invalid reference format" (Or.inl rfl) (by decide) rfl).1,
    congrArg (fun r => r.1.trace) (C17_classification_failure_aborts brokenClassifierCollab
      (freshWorld []) "/tmp/werf" "" "" "Bad//Repo" "invalid reference format" (Or.inl rfl)
      (by decide) rfl).1⟩

/-- An error of `getDockerAuthorizer` is the wrapped failure of `os.Mkdir` on the scratch
directory, or the failure of `docker.Init` as it is. -/
theorem getDockerAuthorizer_error (c : Collab) (w : World) (projectTmpDir : String)
    (credentials pullCredentials pushCredentials : Option DockerCredentials) (msg : GoError)
    (h : (getDockerAuthorizer c w projectTmpDir credentials pullCredentials
            pushCredentials).2 = .error msg) :
    ConstructionError c w projectTmpDir msg := by
  rcases getDockerAuthorizer_cases w credentials pullCredentials pushCredentials with
    hd | ⟨hd, hany⟩ | ⟨hd, h1, h2, h3⟩
  · rw [getDockerAuthorizer_of_config c w projectTmpDir _ _ _ hd] at h
    split at h
    · rename_i e hinit
      obtain rfl := Except.error.inj h
      exact Or.inr ⟨_, _, hinit⟩
    · cases h
  · rw [getDockerAuthorizer_of_scratch c w projectTmpDir _ _ _ hd hany] at h
    split at h
    · rename_i e hmk
      obtain rfl := Except.error.inj h
      exact Or.inl ⟨e, hmk, rfl⟩
    · split at h
      · rename_i e hinit
        obtain rfl := Except.error.inj h
        exact Or.inr ⟨_, _, hinit⟩
      · cases h
  · subst h1 h2 h3
    rw [getDockerAuthorizer_of_home c w projectTmpDir hd] at h
    split at h
    · rename_i e hinit
      obtain rfl := Except.error.inj h
      exact Or.inr ⟨_, _, hinit⟩
    · cases h

/-- C18, as stated, fails: with `docker.Init` failing with `cannot read config.json`,
`GetBuildStagesDockerAuthorizer` returns that bare message, with no operation-kind context;
and with `os.Mkdir` failing, `GetImagePublishDockerAuthorizer` returns a message that names
the directory, not the operation kind. -/
theorem C18_counterexample :
    (GetBuildStagesDockerAuthorizer initFailsCollab (freshWorld [("HOME", "/home/user")])
        "/tmp/werf" "" "").2 = .error "cannot read config.json" ∧
    (GetBuildStagesDockerAuthorizer initFailsCollab (freshWorld [("HOME", "/home/user")])
        "/tmp/werf" "" "").2
      ≠ .error "cannot get docker credentials for pull: cannot read config.json" ∧
    initFailsCollab.Init (freshWorld [("HOME", "/home/user")]) "/home/user/.docker"
      = some "cannot read config.json" ∧
    (GetImagePublishDockerAuthorizer quietCollab (freshWorld []) "/tmp/werf" "u" "p"
        "registry.example.com/app").2
      = .error "error creating tmp dir /tmp/werf/docker for docker config: mkdir: permission denied" ∧
    (GetImagePublishDockerAuthorizer quietCollab (freshWorld []) "/tmp/werf" "u" "p"
        "registry.example.com/app").2
      ≠ .error "cannot get docker credentials for push: mkdir: permission denied" := by
  refine ⟨by decide, by decide, by decide, by decide, by decide⟩

/-- C18, amended. Errors of the entry points, by cause: whenever an entry point returns an
error, either the classifier failed on the non-empty repo with `e` and the message is
`cannot get docker credentials for <kind>: ` followed by `e` (kind `push` for publish and
for build-and-publish, `sync`, `cleanup`, `deploy`; pull and purge resolution cannot fail),
or `os.Mkdir` failed on the scratch directory with `e` and the message is `error creating
tmp dir <dir> for docker config: ` followed by `e`, or `docker.Init` failed and the message
is its error, as it is. -/
theorem C18_errors_by_cause (c : Collab) (w : World)
    (tmp u p u2 p2 repo : String) (msg : GoError) :
    ((GetBuildStagesDockerAuthorizer c w tmp u p).2 = .error msg →
      ConstructionError c w tmp msg) ∧
    ((GetImagePublishDockerAuthorizer c w tmp u p repo).2 = .error msg →
      EntryPointError c w tmp repo "cannot get docker credentials for push: " msg) ∧
    ((GetBuildAndPublishDockerAuthorizer c w tmp u p u2 p2 repo).2 = .error msg →
      EntryPointError c w tmp repo "cannot get docker credentials for push: " msg) ∧
    ((GetPurgeDockerAuthorizer c w tmp u p).2 = .error msg →
      ConstructionError c w tmp msg) ∧
    ((GetSyncDockerAuthorizer c w tmp u p repo).2 = .error msg →
      EntryPointError c w tmp repo "cannot get docker credentials for sync: " msg) ∧
    ((GetCleanupDockerAuthorizer c w tmp u p repo).2 = .error msg →
      EntryPointError c w tmp repo "cannot get docker credentials for cleanup: " msg) ∧
    ((GetDeployDockerAuthorizer c w tmp u p repo).2 = .error msg →
      EntryPointError c w tmp repo "cannot get docker credentials for deploy: " msg) := by
  refine ⟨fun h => ?_, fun h => ?_, fun h => ?_, fun h => ?_, fun h => ?_, fun h => ?_,
    fun h => ?_⟩
  · rcases hres : getPullCredentials w.env c.IsGCR u p with e | pl
    · exact absurd hres (getPullCredentials_ne_error _ _ _ _ e)
    · simp only [GetBuildStagesDockerAuthorizer, hres] at h
      exact getDockerAuthorizer_error c w tmp _ _ _ msg h
  · rcases hres : getPushCredentials w.env c.IsGCR u p repo with e | ps
    · simp only [GetImagePublishDockerAuthorizer, hres] at h
      obtain rfl := Except.error.inj h
      obtain ⟨h1, h2⟩ := getDefaultCredentials_error _ _ _ _ _ e hres
      exact Or.inl ⟨e, h1, h2, rfl⟩
    · simp only [GetImagePublishDockerAuthorizer, hres] at h
      exact Or.inr (getDockerAuthorizer_error c w tmp _ _ _ msg h)
  · rcases hres : getPullCredentials w.env c.IsGCR u p with e | pl
    · exact absurd hres (getPullCredentials_ne_error _ _ _ _ e)
    · rcases hres2 : getPushCredentials w.env c.IsGCR u2 p2 repo with e | ps
      · simp only [GetBuildAndPublishDockerAuthorizer, hres, hres2] at h
        obtain rfl := Except.error.inj h
        obtain ⟨h1, h2⟩ := getDefaultCredentials_error _ _ _ _ _ e hres2
        exact Or.inl ⟨e, h1, h2, rfl⟩
      · simp only [GetBuildAndPublishDockerAuthorizer, hres, hres2] at h
        exact Or.inr (getDockerAuthorizer_error c w tmp _ _ _ msg h)
  · simp only [GetPurgeDockerAuthorizer, getPurgeCredentials] at h
    exact getDockerAuthorizer_error c w tmp _ _ _ msg h
  · rcases hres : getSyncCredentials w.env c.IsGCR u p repo with e | cr
    · simp only [GetSyncDockerAuthorizer, hres] at h
      obtain rfl := Except.error.inj h
      obtain ⟨h1, h2⟩ := getDefaultCredentials_error _ _ _ _ _ e hres
      exact Or.inl ⟨e, h1, h2, rfl⟩
    · simp only [GetSyncDockerAuthorizer, hres] at h
      exact Or.inr (getDockerAuthorizer_error c w tmp _ _ _ msg h)
  · rcases hres : getCleanupCredentials w.env c.IsGCR u p repo with e | cr
    · simp only [GetCleanupDockerAuthorizer, hres] at h
      obtain rfl := Except.error.inj h
      obtain ⟨h1, h2⟩ := getCleanupCredentials_error _ _ _ _ _ e hres
      exact Or.inl ⟨e, h1, h2, rfl⟩
    · simp only [GetCleanupDockerAuthorizer, hres] at h
      exact Or.inr (getDockerAuthorizer_error c w tmp _ _ _ msg h)
  · rcases hres : getDeployCredentials w.env c.IsGCR u p repo with e | cr
    · simp only [GetDeployDockerAuthorizer, hres] at h
      obtain rfl := Except.error.inj h
      obtain ⟨h1, h2⟩ := getDefaultCredentials_error _ _ _ _ _ e hres
      exact Or.inl ⟨e, h1, h2, rfl⟩
    · simp only [GetDeployDockerAuthorizer, hres] at h
      exact Or.inr (getDockerAuthorizer_error c w tmp _ _ _ msg h)

/-- C18, amended, at a concrete input: the classifier fails on `Bad//Repo`, and the error of
the sync entry point is accounted for as a wrapped classifier error. -/
theorem C18_errors_by_cause_witness :
    (GetSyncDockerAuthorizer brokenClassifierCollab (freshWorld []) "/tmp/werf" "" ""
        "Bad//Repo").2
      = .error "cannot get docker credentials for sync: invalid reference format" ∧
    EntryPointError brokenClassifierCollab (freshWorld []) "/tmp/werf" "Bad//Repo"
      "cannot get docker credentials for sync: "
      "cannot get docker credentials for sync: invalid reference format" :=
  ⟨by decide,
    (C18_errors_by_cause brokenClassifierCollab (freshWorld []) "/tmp/werf" "" "" "" ""
      "Bad//Repo" "cannot get docker credentials for sync: invalid reference format").2.2.2.2.1
      (by decide)⟩

/-! ## The configuration directory is never empty -/

/-- The last step of `path.Clean`, turning an empty buffer into `.`, never gives the empty
string. -/
theorem cleanResult_ne_empty (out : List Char) :
    (if out.length = 0 then "." else String.mk out) ≠ "" := by
  split
  · decide
  · rename_i hlen
    intro hmk
    apply hlen
    have hdata : out = [] := congrArg String.data hmk
    rw [hdata]
    rfl

/-- Go `path.Clean` never returns the empty string. -/
theorem pathClean_ne_empty (path : String) : pathClean path ≠ "" := by
  unfold pathClean
  split
  · decide
  · exact cleanResult_ne_empty _

/-- Go `path.Join` of any first element with a non-empty last element is not empty. -/
theorem pathJoin_ne_empty (first last : String) (hlast : last ≠ "") :
    pathJoin [first, last] ≠ "" := by
  have hlen : last.length ≠ 0 := by
    intro h0
    apply hlast
    have hd : last.data = [] := List.length_eq_zero.mp h0
    exact String.ext hd
  unfold pathJoin
  have hsize : (List.map String.length [first, last]).sum ≠ 0 := by
    simp only [List.map_cons, List.map_nil, List.sum_cons, List.sum_nil]
    omega
  simp only [hsize, if_false]
  exact pathClean_ne_empty _

/-- An Authorizer returned by `getDockerAuthorizer` has a non-empty configuration
directory. -/
theorem getDockerAuthorizer_dir_ne_empty (c : Collab) (w : World) (projectTmpDir : String)
    (credentials pullCredentials pushCredentials : Option DockerCredentials)
    (a : DockerAuthorizer)
    (h : (getDockerAuthorizer c w projectTmpDir credentials pullCredentials
            pushCredentials).2 = .ok a) :
    a.HostDockerConfigDir ≠ "" := by
  rcases getDockerAuthorizer_cases w credentials pullCredentials pushCredentials with
    hd | ⟨hd, hany⟩ | ⟨hd, h1, h2, h3⟩
  · rw [getDockerAuthorizer_of_config c w projectTmpDir _ _ _ hd] at h
    split at h
    · cases h
    · obtain rfl := Except.ok.inj h
      exact hd
  · rw [getDockerAuthorizer_of_scratch c w projectTmpDir _ _ _ hd hany] at h
    split at h
    · cases h
    · split at h
      · cases h
      · obtain rfl := Except.ok.inj h
        exact pathJoin_ne_empty projectTmpDir "docker" (by decide)
  · subst h1 h2 h3
    rw [getDockerAuthorizer_of_home c w projectTmpDir hd] at h
    split at h
    · cases h
    · obtain rfl := Except.ok.inj h
      exact pathJoin_ne_empty (w.env "HOME") ".docker" (by decide)

/-- C19. Non-empty config directory invariant: every Authorizer returned by
`getDockerAuthorizer`, hence by any of the seven entry points, has a non-empty
`HostDockerConfigDir`, for every environment and every temporary root; in particular the
home fallback with `HOME` empty is `path.Join("", ".docker") = ".docker"` and the scratch
path with an empty temporary root is `path.Join("", "docker") = "docker"`. -/
theorem C19_config_dir_non_empty (c : Collab) (w : World)
    (tmp u p u2 p2 repo : String) (cr pl ps : Option DockerCredentials)
    (a : DockerAuthorizer) :
    ((getDockerAuthorizer c w tmp cr pl ps).2 = .ok a → a.HostDockerConfigDir ≠ "") ∧
    ((GetBuildStagesDockerAuthorizer c w tmp u p).2 = .ok a → a.HostDockerConfigDir ≠ "") ∧
    ((GetImagePublishDockerAuthorizer c w tmp u p repo).2 = .ok a →
      a.HostDockerConfigDir ≠ "") ∧
    ((GetBuildAndPublishDockerAuthorizer c w tmp u p u2 p2 repo).2 = .ok a →
      a.HostDockerConfigDir ≠ "") ∧
    ((GetPurgeDockerAuthorizer c w tmp u p).2 = .ok a → a.HostDockerConfigDir ≠ "") ∧
    ((GetSyncDockerAuthorizer c w tmp u p repo).2 = .ok a → a.HostDockerConfigDir ≠ "") ∧
    ((GetCleanupDockerAuthorizer c w tmp u p repo).2 = .ok a → a.HostDockerConfigDir ≠ "") ∧
    ((GetDeployDockerAuthorizer c w tmp u p repo).2 = .ok a → a.HostDockerConfigDir ≠ "") ∧
    GetHomeDockerConfigDir (envOf []) = ".docker" ∧
    pathJoin ["", "docker"] = "docker" := by
  refine ⟨getDockerAuthorizer_dir_ne_empty c w tmp cr pl ps a, fun h => ?_, fun h => ?_,
    fun h => ?_, fun h => ?_, fun h => ?_, fun h => ?_, fun h => ?_, by decide, by decide⟩
  · obtain ⟨x, -, hb⟩ := GetBuildStages_ok c w tmp u p a h
    exact getDockerAuthorizer_dir_ne_empty c w tmp _ _ _ a hb
  · obtain ⟨x, -, hb⟩ := GetImagePublish_ok c w tmp u p repo a h
    exact getDockerAuthorizer_dir_ne_empty c w tmp _ _ _ a hb
  · obtain ⟨x, y, -, -, hb⟩ := GetBuildAndPublish_ok c w tmp u p u2 p2 repo a h
    exact getDockerAuthorizer_dir_ne_empty c w tmp _ _ _ a hb
  · obtain ⟨x, -, hb⟩ := GetPurge_ok c w tmp u p a h
    exact getDockerAuthorizer_dir_ne_empty c w tmp _ _ _ a hb
  · obtain ⟨x, -, hb⟩ := GetSync_ok c w tmp u p repo a h
    exact getDockerAuthorizer_dir_ne_empty c w tmp _ _ _ a hb
  · obtain ⟨x, -, hb⟩ := GetCleanup_ok c w tmp u p repo a h
    exact getDockerAuthorizer_dir_ne_empty c w tmp _ _ _ a hb
  · obtain ⟨x, -, hb⟩ := GetDeploy_ok c w tmp u p repo a h
    exact getDockerAuthorizer_dir_ne_empty c w tmp _ _ _ a hb

/-- C19 at the two edge inputs of the claim: `HOME` unset with no credentials gives the
directory `.docker`, and an empty temporary root with pull credentials gives `docker`;
both Authorizers are returned and their directory is not empty. -/
theorem C19_config_dir_non_empty_witness :
    ((getDockerAuthorizer gcrCollab (freshWorld []) "/tmp/werf" none none none).2
      = .ok { HostDockerConfigDir := ".docker", ExternalDockerConfig := true,
              Credentials := none, PullCredentials := none, PushCredentials := none } ∧
     (".docker" : String) ≠ "") ∧
    ((getDockerAuthorizer gcrCollab (freshWorld []) "" none
        (some { Username := "u", Password := "p" }) none).2
      = .ok { HostDockerConfigDir := "docker", ExternalDockerConfig := false,
              Credentials := none, PullCredentials := some { Username := "u", Password := "p" },
              PushCredentials := none } ∧
     ("docker" : String) ≠ "") :=
  ⟨⟨by decide,
    (C19_config_dir_non_empty gcrCollab (freshWorld []) "/tmp/werf" "" "" "" "" ""
      none none none
      { HostDockerConfigDir := ".docker", ExternalDockerConfig := true,
        Credentials := none, PullCredentials := none, PushCredentials := none }).1
      (by decide)⟩,
   ⟨by decide,
    (C19_config_dir_non_empty gcrCollab (freshWorld []) "" "" "" "" "" ""
      none (some { Username := "u", Password := "p" }) none
      { HostDockerConfigDir := "docker", ExternalDockerConfig := false,
        Credentials := none, PullCredentials := some { Username := "u", Password := "p" },
        PushCredentials := none }).1 (by decide)⟩⟩

/-! ## Half-supplied option pairs -/

/-- C20. A half-supplied option pair is treated exactly like no options: when exactly one of
the username option and the password option is empty, each of the six resolvers returns
what it returns for the option pair `("", "")`, for every repo, classifier and environment;
the supplied half is ignored. -/
theorem C20_half_supplied_pair_ignored (env : Env) (IsGCR : Classifier)
    (usernameOption passwordOption repo : String)
    (hhalf : (usernameOption = "" ∧ passwordOption ≠ "") ∨
             (usernameOption ≠ "" ∧ passwordOption = "")) :
    getPullCredentials env IsGCR usernameOption passwordOption
      = getPullCredentials env IsGCR "" "" ∧
    getPushCredentials env IsGCR usernameOption passwordOption repo
      = getPushCredentials env IsGCR "" "" repo ∧
    getSyncCredentials env IsGCR usernameOption passwordOption repo
      = getSyncCredentials env IsGCR "" "" repo ∧
    getDeployCredentials env IsGCR usernameOption passwordOption repo
      = getDeployCredentials env IsGCR "" "" repo ∧
    getPurgeCredentials env IsGCR usernameOption passwordOption
      = getPurgeCredentials env IsGCR "" "" ∧
    getCleanupCredentials env IsGCR usernameOption passwordOption repo
      = getCleanupCredentials env IsGCR "" "" repo := by
  have hspec : getSpecifiedCredentials usernameOption passwordOption
      = getSpecifiedCredentials "" "" := by
    unfold getSpecifiedCredentials
    rcases hhalf with ⟨h, -⟩ | ⟨-, h⟩ <;> simp [h]
  simp only [getPullCredentials, getPushCredentials, getSyncCredentials,
    getDeployCredentials, getPurgeCredentials, getCleanupCredentials, getDefaultCredentials,
    hspec, and_self]

/-- C20 at the example of the claim: pull with username `alice`, an empty password and both
CI variables set returns the pair `gitlab-ci-token`/`tok123`, as it does with no options at
all. -/
theorem C20_half_supplied_pair_ignored_witness :
    getPullCredentials
        (envOf [("CI_REGISTRY", "https://gitlab.example.com"), ("CI_JOB_TOKEN", "tok123")])
        (fun _ => .ok false) "alice" ""
      = getPullCredentials
        (envOf [("CI_REGISTRY", "https://gitlab.example.com"), ("CI_JOB_TOKEN", "tok123")])
        (fun _ => .ok false) "" "" ∧
    getPullCredentials
        (envOf [("CI_REGISTRY", "https://gitlab.example.com"), ("CI_JOB_TOKEN", "tok123")])
        (fun _ => .ok false) "alice" ""
      = .ok (some { Username := "gitlab-ci-token", Password := "tok123" }) :=
  ⟨(C20_half_supplied_pair_ignored
      (envOf [("CI_REGISTRY", "https://gitlab.example.com"), ("CI_JOB_TOKEN", "tok123")])
      (fun _ => .ok false) "alice" "" "" (Or.inr ⟨by decide, rfl⟩)).1,
    by decide⟩

end docker_authorizer
